import Mathlib

/-!
Verification of the AISubBrawl game server (server_world_db.py) against its
natural-language specification.

Modelling conventions (shallow embedding):
* Python floats are modelled as rationals (ℚ); Python ints as ℤ or ℕ.
* Wherever the source compares a Euclidean distance d = sqrt(q) against a
  nonnegative threshold c (d <= c, d < c, d > c), the embedding compares the
  squared distance q against c^2; this is equivalent because sqrt is monotone
  and both sides are nonnegative.  Such definitions carry the suffix Sq or a
  comment.
* Transcendental operations whose values never influence the properties under
  verification (sin, cos, atan2, radian conversion, angle wrapping applied to
  bearings, and sqrt where a raw range value flows into an SNR formula) are
  abstracted into an oracle structure TrigO; every theorem quantifies over the
  oracle, so it holds in particular for the real-valued functions.
* Random draws (report-interval sample, bearing jitter, initial battery) are
  passed as explicit parameters: theorems hold for every admissible draw.
* Config values are the DEFAULT_CFG constants of the source unless a claim
  quantifies over them (the blast radius is a parameter where needed).
-/

namespace SubBrawl

/-- Python clamp(v, lo, hi) = max(lo, min(hi, v)). -/
def clamp (v lo hi : ℚ) : ℚ := max lo (min hi v)

/-- Squared 2D distance; the source's distance(x1,y1,x2,y2) is its square root. -/
def dist2sq (x1 y1 x2 y2 : ℚ) : ℚ := (x2 - x1)^2 + (y2 - y1)^2

/-- Squared 3D distance; the source's distance3d is its square root. -/
def dist3sq (ax ay az bx bY bz : ℚ) : ℚ :=
  (ax - bx)^2 + (ay - bY)^2 + (az - bz)^2

/-- Oracle for transcendental functions; see the module comment. -/
structure TrigO where
  rad : ℚ → ℚ
  sin : ℚ → ℚ
  cos : ℚ → ℚ
  wrap : ℚ → ℚ
  atan2 : ℚ → ℚ → ℚ
  sqrt : ℚ → ℚ

/-- Trivial oracle used to instantiate witnesses. -/
def trigZero : TrigO :=
  { rad := fun _ => 0, sin := fun _ => 0, cos := fun _ => 0,
    wrap := fun a => a, atan2 := fun _ _ => 0, sqrt := fun _ => 0 }

/-! DEFAULT_CFG constants from the source (server_world_db.py lines 12-126). -/

def ringR : ℚ := 6000
def subMaxSpeed : ℚ := 12
def subAcceleration : ℚ := 2
def neutralBias : ℚ := 8/1000
def snorkelDepth : ℚ := 15
def snorkelOffHysteresis : ℚ := 2
def maxPerUser : ℕ := 2
def blowDurationS : ℚ := 10
def blowUpwardMps : ℚ := 5
def blowRechargePerS : ℚ := 6/100
def drainPerThrottlePerS : ℚ := 1/10
def highSpeedMultiplier : ℚ := 15
def rechargePerSSnorkel : ℚ := 1/4
def maxFuelCapacity : ℚ := 1000
def initialFuel : ℚ := 1000
def crushDepth : ℚ := 500
def crushDpsPer100m : ℚ := 30
def batteryInitialMin : ℚ := 40
def batteryInitialMax : ℚ := 80
def blastRadiusDefault : ℚ := 60
def torpMaxRange : ℚ := 6000
def magazineSize : ℤ := 4
def reloadBatteryCostPerTorp : ℚ := 10
def torpMinSpeed : ℚ := 8
def torpMaxSpeed : ℚ := 18
def torpDrainPerMpsPerS : ℚ := 15/10000
def activePingCost : ℚ := 2
def minForPing : ℚ := 5
def baseSnr : ℚ := 8
def speedNoiseGain : ℚ := 6/10
def snorkelBonus : ℚ := 15
def activeMaxRange : ℚ := 6000
def activeMaxAngle : ℚ := 210
def pingBaseCost : ℚ := 1/2
def pingCostPerDegree : ℚ := 4/100
def pingCostPer100m : ℚ := 2683/10000
def pingMinBattery : ℚ := 5
def sonarAttenuationDb : ℚ := 3
def cloudCloseHearRange : ℚ := 400
def respawnCooldownS : ℚ := 7200
def scannerNoiseBonusDb : ℚ := 8
def minSafeDistance : ℚ := 150
def noseOffset : ℚ := 12

/-- Submarine state (the SubModel columns used by the verified code paths;
ping_cooldown is a transient instance attribute in the source, absent until
the first successful ping, hence an Option). -/
structure Sub where
  id : ℕ
  owner : ℕ
  x : ℚ
  y : ℚ
  depth : ℚ
  heading : ℚ
  pitch : ℚ
  rudderAngle : ℚ
  rudderCmd : ℚ
  planes : ℚ
  throttle : ℚ
  targetDepth : Option ℚ
  targetHeading : Option ℚ
  speed : ℚ
  battery : ℚ
  fuel : ℚ
  refuelTimer : ℚ
  refuelActive : Bool
  refuelFuelerId : Option ℕ
  isSnorkeling : Bool
  blowActive : Bool
  blowCharge : ℚ
  blowEnd : ℚ
  health : ℚ
  passiveDir : ℚ
  lastReport : ℚ
  scannerNoiseUntil : ℚ
  torpedoAmmo : ℤ
  score : ℚ
  kills : ℤ
  pingCooldown : Option ℚ

/-- Torpedo state (TorpedoModel columns plus the ephemeral underscore flags). -/
structure Torp where
  id : ℕ
  owner : ℕ
  parent : ℕ
  x : ℚ
  y : ℚ
  depth : ℚ
  targetDepth : Option ℚ
  heading : ℚ
  targetHeading : Option ℚ
  speed : ℚ
  targetSpeed : ℚ
  createdAt : ℚ
  wireMode : Bool
  wireLength : ℚ
  passiveSonarActive : Bool
  passiveSonarBearing : ℚ
  lastSonarContact : ℚ
  activeSonarEnabled : Bool
  lastActivePing : ℚ
  battery : ℚ
  startX : Option ℚ
  startY : Option ℚ
  pendingTurn : Option ℚ
  batteryDead : Bool
  expired : Bool
  checkProx : Bool
  markDelete : Bool

/-- Fueler state (FuelerModel columns). -/
structure Fueler where
  id : ℕ
  owner : Option ℕ
  x : ℚ
  y : ℚ
  depth : ℚ
  fuel : ℚ
  maxFuel : ℚ
  spawnedAt : ℚ
  emptySince : Option ℚ

/-- A process-memory weather cloud (dict entries in WEATHER_CLOUDS). -/
structure Cloud where
  x : ℚ
  y : ℚ
  radius : ℚ
  minDepth : ℚ
  maxDepth : ℚ
  attenuationDb : ℚ
  damageDps : ℚ

/-- Whether a point is outside the main ring (is_outside_ring); the source
compares distance(x,y,cx,cy) > R with center (0,0), R = 6000. -/
def isOutsideRing (x y : ℚ) : Bool := dist2sq x y 0 0 > ringR^2

/-- weather_cloud_damage: max damage_dps of clouds containing the point,
outside the ring only. -/
def weatherCloudDamage (clouds : List Cloud) (x y depth : ℚ) : ℚ :=
  if !isOutsideRing x y then 0
  else clouds.foldl (fun dps c =>
    if depth < c.minDepth || depth > c.maxDepth then dps
    else if dist2sq x y c.x c.y ≤ c.radius^2 then max dps c.damageDps
    else dps) 0

/-- weather_cloud_attenuation: max attenuation_db of clouds containing the point. -/
def weatherCloudAttenuation (clouds : List Cloud) (x y depth : ℚ) : ℚ :=
  clouds.foldl (fun best c =>
    if depth < c.minDepth || depth > c.maxDepth then best
    else if dist2sq x y c.x c.y ≤ c.radius^2 then max best c.attenuationDb
    else best) 0

/-- Squared distance from point p to segment a-b (seg_point_dist squared). -/
def segPointDistSq (px py ax ay bx bY : ℚ) : ℚ :=
  let dx := bx - ax
  let dy := bY - ay
  if dx = 0 ∧ dy = 0 then dist2sq px py ax ay
  else
    let t := clamp (((px - ax)*dx + (py - ay)*dy) / (dx*dx + dy*dy)) 0 1
    dist2sq px py (ax + t*dx) (ay + t*dy)

/-- weather_cloud_occlusion: max attenuation of clouds whose depth band
overlaps the endpoints' depth span and whose cylinder meets the XY segment. -/
def weatherCloudOcclusion (clouds : List Cloud)
    (x1 y1 d1 x2 y2 d2 : ℚ) : ℚ :=
  clouds.foldl (fun best c =>
    if max d1 d2 < c.minDepth || min d1 d2 > c.maxDepth then best
    else if segPointDistSq c.x c.y x1 y1 x2 y2 ≤ c.radius^2 then
      max best c.attenuationDb
    else best) 0

/-! Weapons and blast damage (explode_torpedo_in_mem, process_explosions_mem,
detonate_torp). -/

/-- An explosion event payload (owner routing plus the fields the claims use;
distSq stores the square of the reported distance). -/
structure ExplosionEv where
  user : ℕ
  torpedoId : ℕ
  blastRadius : ℚ
  damage : ℚ
  distSq : ℚ

/-- Graduated damage tiers of the source, expressed on the squared distance:
d <= 60 -> 100, d <= 80 -> 75, d <= 100 -> 50, else 25. -/
def gradDamageSq (dSq : ℚ) : ℚ :=
  if dSq ≤ 60^2 then 100
  else if dSq ≤ 80^2 then 75
  else if dSq ≤ 100^2 then 50
  else 25

/-- Replace the i-th element of a list by f applied to it. -/
def listModify {α : Type} (f : α → α) : ℕ → List α → List α
  | _, [] => []
  | 0, s :: rest => f s :: rest
  | n+1, s :: rest => s :: listModify f n rest

/-- Kill accounting of explode_torpedo_in_mem: the first submarine owned by
the torpedo owner gains +1 kill and +100 score. -/
def bumpKill (ownerId : ℕ) (subs : List Sub) : List Sub :=
  match subs.findIdx? (fun sub => sub.owner == ownerId) with
  | some j => listModify (fun k =>
      { k with kills := k.kills + 1, score := k.score + 100 }) j subs
  | none => subs

/-- One victim iteration of explode_torpedo_in_mem, acting on the i-th
submarine of the current list state. -/
def explodeVictimStep (blast : ℚ) (t : Torp) (acc : List Sub × List ExplosionEv)
    (i : ℕ) : List Sub × List ExplosionEv :=
  match acc.1.get? i with
  | none => acc
  | some s =>
    let dSq := dist3sq t.x t.y t.depth s.x s.y s.depth
    if dSq ≤ blast^2 ∧ s.health > 0 then
      let damage := gradDamageSq dSq
      let prevHealth := s.health
      let subs1 := listModify (fun v => { v with health := max 0 (v.health - damage) })
        i acc.1
      let subs2 := if prevHealth > 0 ∧ max 0 (prevHealth - damage) ≤ 0 then
        bumpKill t.owner subs1 else subs1
      (subs2, acc.2 ++ [⟨s.owner, t.id, blast, damage, dSq⟩])
    else acc

/-- explode_torpedo_in_mem: graduated blast damage to every living submarine
within the blast radius, with kill/score accounting and explosion events. -/
def explodeTorpedo (blast : ℚ) (t : Torp) (subs : List Sub) :
    List Sub × List ExplosionEv :=
  (List.range subs.length).foldl (explodeVictimStep blast t) (subs, [])

/-- One torpedo iteration of process_explosions_mem: battery-dead torpedoes
detonate in place; expired ones are deleted silently; armed torpedoes with an
active proximity check detonate on the first living submarine within the fuze
radius unless the (living) parent submarine is closer than the 150 m minimum
safe distance, in which case nothing happens. -/
def explosionsTorpStep (blast prox : ℚ) (t : Torp) (subs : List Sub) :
    Torp × List Sub × List ExplosionEv :=
  if t.batteryDead ∧ ¬t.markDelete then
    let r := explodeTorpedo blast t subs
    ({ t with markDelete := true }, r.1, r.2)
  else if t.expired then
    ({ t with markDelete := true }, subs, [])
  else if t.checkProx then
    let parent? := subs.find? (fun s => s.id == t.parent)
    let tooCloseToParent := match parent? with
      | some p => decide (dist3sq t.x t.y t.depth p.x p.y p.depth < minSafeDistance^2)
      | none => false
    if tooCloseToParent then (t, subs, [])
    else
      match subs.find? (fun s =>
          decide (s.health > 0) &&
          decide (dist3sq t.x t.y t.depth s.x s.y s.depth ≤ prox^2)) with
      | some _ =>
        let r := explodeTorpedo blast t subs
        ({ t with markDelete := true }, r.1, r.2)
      | none => (t, subs, [])
  else (t, subs, [])

/-- process_explosions_mem: fold the per-torpedo step over all torpedoes,
threading the submarine list. -/
def processExplosions (blast prox : ℚ) (torps : List Torp) (subs : List Sub) :
    List Torp × List Sub × List ExplosionEv :=
  torps.foldl (fun acc t =>
    let r := explosionsTorpStep blast prox t acc.2.1
    (acc.1 ++ [r.1], r.2.1, acc.2.2 ++ r.2.2)) ([], subs, [])

/-- detonate_torp (the /detonate command-detonate endpoint, after the
ownership checks): applies graduated blast damage to EVERY submarine within
the blast radius — there is no health gate, no kill accounting and no
minimum-safe-distance check for the parent.  The source's for-loop over the
submarines in order is rendered as structural recursion. -/
def detonateTorp (blast : ℚ) (t : Torp) : List Sub → List Sub × List ExplosionEv
  | [] => ([], [])
  | s :: rest =>
    let dSq := dist3sq t.x t.y t.depth s.x s.y s.depth
    let r := detonateTorp blast t rest
    if dSq ≤ blast^2 then
      let damage := gradDamageSq dSq
      ({ s with health := max 0 (s.health - damage) } :: r.1,
       (⟨s.owner, t.id, blast, damage, dSq⟩ : ExplosionEv) :: r.2)
    else (s :: r.1, r.2)

/-- The damage both detonation routines deal to a submarine at true 3D
distance d (claim-level view of the tier logic; the source computes
d = sqrt(dSq) and compares d against the thresholds). -/
def blastDamageAt (blast d : ℚ) : ℚ :=
  if d ≤ blast then
    (if d ≤ 60 then 100 else if d ≤ 80 then 75 else if d ≤ 100 then 50 else 25)
  else 0

/-! register_sub (respawn cooldown / slot logic, source lines 1966-2040). -/

/-- Decision outcome of register_sub (the cooldown/slot gate; the 400 error
carries cooldown_remaining_s and available_slots). -/
inductive RegDecision where
  | cooldownErr (remaining : ℤ) (availableSlots : ℕ)
  | proceed

/-- Python truthiness test plus age check used for both death timestamps:
ts and now - ts < cooldown_s. -/
def activeCooldown (cooldownS now ts : ℚ) : Bool :=
  decide (ts ≠ 0) && decide (now - ts < cooldownS)

/-- The death timestamps whose cooldown is still running. -/
def activeDeathTimestamps (cooldownS now lastDeathTs prevDeathTs : ℚ) : List ℚ :=
  [lastDeathTs, prevDeathTs].filter (activeCooldown cooldownS now)

/-- register_sub's gate: with at least one living submarine and a positive
cooldown config, the request fails when the number of living submarines
reaches max_per_user minus the number of running cooldowns; the reported
remaining time is the floor of the smallest remaining cooldown (0 when no
timestamp is in cooldown).  ℕ subtraction models the clamp of
available_slots at 0. -/
def registerSubDecision (maxSubs : ℕ) (cooldownS : ℚ) (currentSubs : ℕ)
    (lastDeathTs prevDeathTs now : ℚ) : RegDecision :=
  if currentSubs > 0 ∧ cooldownS > 0 then
    let actives := activeDeathTimestamps cooldownS now lastDeathTs prevDeathTs
    let availableSlots : ℕ := maxSubs - actives.length
    if currentSubs ≥ availableSlots then
      let rems := actives.map (fun ts => cooldownS - (now - ts))
      let remaining : ℤ := match rems with
        | [] => 0
        | r :: rest => Int.floor (rest.foldl min r)
      .cooldownErr remaining availableSlots
    else .proceed
  else .proceed

/-- Modelled from the spec words of claim C3: the condition under which the
claim says the cooldown error occurs — at least one living submarine, at
least one of the two death timestamps within the cooldown window, and no
free slot remaining. -/
def registerCooldownErrClaimed (maxSubs : ℕ) (cooldownS : ℚ) (currentSubs : ℕ)
    (lastDeathTs prevDeathTs now : ℚ) : Prop :=
  1 ≤ currentSubs ∧
  (activeCooldown cooldownS now lastDeathTs = true ∨
   activeCooldown cooldownS now prevDeathTs = true) ∧
  currentSubs ≥ maxSubs -
    (activeDeathTimestamps cooldownS now lastDeathTs prevDeathTs).length

/-! Compass/server heading conversion (set_sub_heading, source lines
2512-2548).  The server stores radians(server_deg); its response converts a
stored heading h back with (h * 180 / pi + 90) % 360, and since
h = radians(server_deg) this is exactly (server_deg + 90) % 360 — the radian
round trip cancels symbolically, so the embedding works in degrees. -/

/-- Python float modulo 360 (result in [0, 360) for positive modulus). -/
def qmod360 (x : ℚ) : ℚ := x - 360 * (Int.floor (x / 360) : ℚ)

/-- Conversion applied to an incoming compass heading:
server_deg = (90 - compass_deg) % 360. -/
def compassToServerDeg (c : ℚ) : ℚ := qmod360 (90 - c)

/-- Conversion the API responses apply to a stored server heading:
compass = (server_deg + 90) % 360. -/
def serverToCompassDeg (s : ℚ) : ℚ := qmod360 (s + 90)

/-- The composition compass -> server -> compass as the API computes it. -/
def compassRoundTrip (c : ℚ) : ℚ := serverToCompassDeg (compassToServerDeg c)

/-! Active sonar ping endpoint (source lines 2602-2670).  The endpoint also
schedules echo returns and notifies other submarines; neither changes the
pinging submarine's state, which is all claim C7 is about, so only the
battery/cooldown gate and its state effects are embedded. -/

/-- Result of a /ping request for the pinging submarine. -/
inductive PingRes where
  | batteryTooLow
  | notEnoughBattery
  | recharging
  | accepted (batteryAfter : ℚ) (cooldownUntil : ℚ) (cost : ℚ)

/-- Battery cost of a ping: base + beam * per_degree + (range/100) * per_100m
(the requested range is not clamped before the cost computation). -/
def pingCost (beam maxR : ℚ) : ℚ :=
  pingBaseCost + beam * pingCostPerDegree + (maxR / 100) * pingCostPer100m

/-- The /ping gate: beam capped at max_angle; battery must reach min_battery
and the total cost; the code deducts the cost and only then checks the 5 s
cooldown — but the cooldown error path returns without committing, so the
deduction is discarded there.  A successful ping stores the deducted battery
and a cooldown expiring 5 s from now. -/
def pingStep (battery : ℚ) (cooldown : Option ℚ) (now beamReq maxR : ℚ) : PingRes :=
  let beam := min beamReq activeMaxAngle
  let cost := pingCost beam maxR
  if battery < pingMinBattery then .batteryTooLow
  else if battery < cost then .notEnoughBattery
  else
    let batteryAfter := clamp (battery - cost) 0 100
    if (match cooldown with | some pc => decide (pc > now) | none => false) then
      .recharging
    else .accepted batteryAfter (now + 5) cost

/-! launch_torpedo and reload_torpedoes (source lines 2125-2242). -/

/-- The torpedo record launch_torpedo creates: spawned 12 m ahead of the
nose at the submarine's depth and heading, wire mode, range budget clamped
to max_range, configured speed, full battery. -/
def launchedTorp (o : TrigO) (s : Sub) (rangeReq : ℚ) (newId : ℕ) (now : ℚ) :
    Torp :=
  { id := newId, owner := s.owner, parent := s.id,
    x := s.x + o.cos s.heading * noseOffset,
    y := s.y + o.sin s.heading * noseOffset,
    depth := s.depth, targetDepth := none,
    heading := s.heading, targetHeading := none,
    speed := 6, targetSpeed := 6, createdAt := now,
    wireMode := true, wireLength := min rangeReq torpMaxRange,
    passiveSonarActive := true, passiveSonarBearing := 0,
    lastSonarContact := 0, activeSonarEnabled := false,
    lastActivePing := 0, battery := 100,
    startX := none, startY := none, pendingTurn := none,
    batteryDead := false, expired := false, checkProx := false,
    markDelete := false }

/-- launch_torpedo after the ownership check: an empty magazine is rejected
with a 400; otherwise one round is consumed atomically with the torpedo's
creation.  No submarine battery is deducted (the legacy per-shot cost is
disabled: battery_cost = 0.0). -/
def launchTorpedo (o : TrigO) (s : Sub) (rangeReq : ℚ) (newId : ℕ) (now : ℚ) :
    Option (Sub × Torp) :=
  if s.torpedoAmmo ≤ 0 then none
  else some ({ s with torpedoAmmo := s.torpedoAmmo - 1 },
             launchedTorp o s rangeReq newId now)

/-- Result of a /reload_torpedoes request. -/
inductive ReloadRes where
  | magazineFull
  | invalidCount
  | notEnoughBattery (required : ℚ)
  | reloaded (s' : Sub) (count : ℤ)

/-- reload_torpedoes after the ownership check: each round costs
reload_battery_cost_per_torp battery; reloading never exceeds the magazine;
a request without a count fills the magazine. -/
def reloadTorpedoes (s : Sub) (count : Option ℤ) : ReloadRes :=
  let current := s.torpedoAmmo
  let missing := max 0 (magazineSize - current)
  if missing ≤ 0 then .magazineFull
  else
    let toReload? : Option ℤ := match count with
      | none => some missing
      | some c => if c ≤ 0 then none else some (min c missing)
    match toReload? with
    | none => .invalidCount
    | some toReload =>
      let batteryCost := reloadBatteryCostPerTorp * (toReload : ℚ)
      if s.battery < batteryCost then .notEnoughBattery batteryCost
      else .reloaded
        { s with battery := clamp (s.battery - batteryCost) 0 100,
                 torpedoAmmo := current + toReload } toReload

/-! Per-user snapshots (send_snapshot_mem, source lines 395-406). -/

/-- Public projection of a submarine (_sub_pub). -/
structure SubPub where
  id : ℕ
  x : ℚ
  y : ℚ
  depth : ℚ
  heading : ℚ
  pitch : ℚ
  rudderAngle : ℚ
  rudderCmd : ℚ
  planes : ℚ
  speed : ℚ
  battery : ℚ
  fuel : ℚ
  isSnorkeling : Bool
  blowActive : Bool
  blowCharge : ℚ
  health : ℚ
  targetDepth : Option ℚ
  targetHeading : Option ℚ
  throttle : ℚ
  torpedoAmmo : ℤ
  score : ℚ
  kills : ℤ
  refuelActive : Bool
  refuelTimer : ℚ

/-- Public projection of a torpedo (_torp_pub). -/
structure TorpPub where
  id : ℕ
  x : ℚ
  y : ℚ
  depth : ℚ
  heading : ℚ
  speed : ℚ
  wireMode : Bool
  wireLength : ℚ
  passiveSonarActive : Bool
  passiveSonarBearing : ℚ
  lastSonarContact : ℚ
  activeSonarEnabled : Bool
  targetHeading : Option ℚ
  targetDepth : Option ℚ
  battery : ℚ

/-- Public projection of a fueler (_fueler_pub): identity, surface position
and current/max fuel. -/
structure FuelerPub where
  id : ℕ
  x : ℚ
  y : ℚ
  depth : ℚ
  fuel : ℚ
  maxFuel : ℚ

def subPub (s : Sub) : SubPub :=
  ⟨s.id, s.x, s.y, s.depth, s.heading, s.pitch, s.rudderAngle, s.rudderCmd,
   s.planes, s.speed, s.battery, s.fuel, s.isSnorkeling, s.blowActive,
   s.blowCharge, s.health, s.targetDepth, s.targetHeading, s.throttle,
   s.torpedoAmmo, s.score, s.kills, s.refuelActive, s.refuelTimer⟩

def torpPub (t : Torp) : TorpPub :=
  ⟨t.id, t.x, t.y, t.depth, t.heading, t.speed, t.wireMode, t.wireLength,
   t.passiveSonarActive, t.passiveSonarBearing, t.lastSonarContact,
   t.activeSonarEnabled, t.targetHeading, t.targetDepth, t.battery⟩

def fuelerPub (f : Fueler) : FuelerPub := ⟨f.id, f.x, f.y, f.depth, f.fuel, f.maxFuel⟩

/-- A snapshot event payload. -/
structure Snapshot where
  subs : List SubPub
  torpedoes : List TorpPub
  fuelers : List FuelerPub
  time : ℚ

/-- send_snapshot_mem: the user's own submarines and torpedoes, but ALL
fuelers in the world regardless of owner. -/
def sendSnapshotMem (userId : ℕ) (subs : List Sub) (torps : List Torp)
    (fuelers : List Fueler) (now : ℚ) : Snapshot :=
  { subs := (subs.filter (fun s => s.owner == userId)).map subPub,
    torpedoes := (torps.filter (fun t => t.owner == userId)).map torpPub,
    fuelers := fuelers.map fuelerPub,
    time := now }

/-! Passive sonar pipeline (schedule_passive_contacts, source lines
1166-1342).  The random report-interval sample and the drawn bearing jitter
are explicit parameters; sqrt/atan2/wrap/radians go through the oracle. -/

inductive RangeClass where
  | short
  | medium
  | long

inductive CType where
  | submarine
  | emergencyBlow
  | torpedo

inductive EvKind where
  | contact
  | torpedoContact

/-- A passive contact event (contact / torpedo_contact payload). -/
structure ContactEv where
  user : ℕ
  kind : EvKind
  observer : ℕ
  bearing : ℚ
  bearingRel : ℚ
  rangeClass : RangeClass
  snr : ℚ
  contactType : CType
  time : ℚ

/-- Weather losses shared by all passive paths: applied only at ranges of at
least cloud_close_hear_range: base attenuation when either endpoint is
outside the ring, the worse of the two endpoint cloud attenuations, and the
occlusion of clouds crossing the segment. -/
def weatherLoss (clouds : List Cloud) (x1 y1 d1 x2 y2 d2 : ℚ) : ℚ :=
  (if isOutsideRing x1 y1 || isOutsideRing x2 y2 then sonarAttenuationDb else 0)
  + max (weatherCloudAttenuation clouds x1 y1 d1)
        (weatherCloudAttenuation clouds x2 y2 d2)
  + weatherCloudOcclusion clouds x1 y1 d1 x2 y2 d2

/-- SNR a submarine observer computes for a submarine target. -/
def subTargetSnr (o : TrigO) (clouds : List Cloud) (now : ℚ) (obs tgt : Sub) : ℚ :=
  let speedNoise := speedNoiseGain * (tgt.speed / subMaxSpeed)
  let scannerBonus := if now < tgt.scannerNoiseUntil then scannerNoiseBonusDb else 0
  let snorkelB := if tgt.isSnorkeling then snorkelBonus else 0
  let blowB := if tgt.blowActive then 25 else 0
  let rng := o.sqrt (dist2sq obs.x obs.y tgt.x tgt.y)
  let base := baseSnr + speedNoise + snorkelB + blowB + scannerBonus
  let snr0 := base - (rng / 1000) * 2 - tgt.depth / 200
  if rng ≥ cloudCloseHearRange then
    snr0 - weatherLoss clouds obs.x obs.y obs.depth tgt.x tgt.y tgt.depth
  else snr0

/-- Whether a submarine target produces a contact for this observer: the loop
skips only the observer itself (owner AND id equal), then applies the range
gate (8000 m for an emergency blow, the active max range otherwise) and the
5.0 SNR threshold. -/
def subTargetHit (o : TrigO) (clouds : List Cloud) (now : ℚ) (obs tgt : Sub) : Bool :=
  if tgt.owner == obs.owner && tgt.id == obs.id then false
  else
    let rng := o.sqrt (dist2sq obs.x obs.y tgt.x tgt.y)
    let maxRange := if tgt.blowActive then 8000 else activeMaxRange
    if rng > maxRange then false
    else decide (subTargetSnr o clouds now obs tgt ≥ 5)

/-- SNR a submarine observer computes for a torpedo target. -/
def torpTargetSnr (o : TrigO) (clouds : List Cloud) (obs : Sub) (torp : Torp) : ℚ :=
  let torpNoise := speedNoiseGain * (torp.speed / 6) * 2
  let base := baseSnr * (12/10) + torpNoise
  let rng := o.sqrt (dist2sq obs.x obs.y torp.x torp.y)
  let snr0 := base - (rng / 1000) * (5/2) - torp.depth / 200
  if rng ≥ cloudCloseHearRange then
    snr0 - weatherLoss clouds obs.x obs.y obs.depth torp.x torp.y torp.depth
  else snr0

/-- Whether a torpedo target produces a contact for this observer: torpedoes
of the observer's own user are skipped, then the 0.8-scaled range cap and
the 4.0 SNR threshold apply. -/
def torpTargetHit (o : TrigO) (clouds : List Cloud) (obs : Sub) (torp : Torp) : Bool :=
  if torp.owner == obs.owner then false
  else
    let rng := o.sqrt (dist2sq obs.x obs.y torp.x torp.y)
    if rng > activeMaxRange * (8/10) then false
    else decide (torpTargetSnr o clouds obs torp ≥ 4)

/-- Contact event for a detected submarine target. -/
def mkSubContact (o : TrigO) (clouds : List Cloud) (jit now : ℚ) (obs tgt : Sub) :
    ContactEv :=
  let rng := o.sqrt (dist2sq obs.x obs.y tgt.x tgt.y)
  let brg := o.wrap (o.atan2 (tgt.y - obs.y) (tgt.x - obs.x) + jit)
  { user := obs.owner, kind := .contact, observer := obs.id,
    bearing := brg, bearingRel := o.wrap (brg - obs.heading),
    rangeClass := if rng < 1200 then .short else if rng < 3000 then .medium else .long,
    snr := subTargetSnr o clouds now obs tgt,
    contactType := if tgt.blowActive then .emergencyBlow else .submarine,
    time := now }

/-- Contact event for a detected torpedo target. -/
def mkTorpContact (o : TrigO) (clouds : List Cloud) (jit now : ℚ) (obs : Sub)
    (torp : Torp) : ContactEv :=
  let rng := o.sqrt (dist2sq obs.x obs.y torp.x torp.y)
  let brg := o.wrap (o.atan2 (torp.y - obs.y) (torp.x - obs.x) + jit)
  { user := obs.owner, kind := .contact, observer := obs.id,
    bearing := brg, bearingRel := o.wrap (brg - obs.heading),
    rangeClass := if rng < 1000 then .short else if rng < 2500 then .medium else .long,
    snr := torpTargetSnr o clouds obs torp,
    contactType := .torpedo,
    time := now }

/-- One submarine observer's pass of schedule_passive_contacts: if the random
report-interval cooldown has not elapsed the observer is skipped entirely;
otherwise the submarine loop emits on the FIRST hit target and breaks,
setting last_report, and then the torpedo loop ALSO runs and emits on its
first hit, setting last_report again. -/
def passiveObserverStep (o : TrigO) (clouds : List Cloud) (ivl jitS jitT now : ℚ)
    (obs : Sub) (subs : List Sub) (torps : List Torp) : Sub × List ContactEv :=
  if now - obs.lastReport < ivl then (obs, [])
  else
    let state1 := match subs.find? (subTargetHit o clouds now obs) with
      | some tgt => ({ obs with lastReport := now }, [mkSubContact o clouds jitS now obs tgt])
      | none => (obs, [])
    match torps.find? (torpTargetHit o clouds obs) with
    | some tp =>
      ({ state1.1 with lastReport := now },
       state1.2 ++ [mkTorpContact o clouds jitT now obs tp])
    | none => state1

/-- SNR a torpedo observer computes for a submarine target. -/
def torpObsSnr (o : TrigO) (clouds : List Cloud) (torp : Torp) (tgt : Sub) : ℚ :=
  let speedNoise := speedNoiseGain * (tgt.speed / subMaxSpeed)
  let snorkelB := if tgt.isSnorkeling then snorkelBonus else 0
  let blowB := if tgt.blowActive then 25 else 0
  let rng := o.sqrt (dist2sq torp.x torp.y tgt.x tgt.y)
  let snr0 := (baseSnr + speedNoise + snorkelB + blowB)
    - (rng / 1000) * 2 - tgt.depth / 200
  if rng ≥ cloudCloseHearRange then
    snr0 - weatherLoss clouds torp.x torp.y torp.depth tgt.x tgt.y tgt.depth
  else snr0

/-- Whether a torpedo's passive sonar detects a submarine target: same-owner
targets are skipped first, then the 2000 m range cap, the ±105° beam (via
the oracle's atan2/wrap/radians) and the 3.0 SNR threshold apply. -/
def torpObsTargetHit (o : TrigO) (clouds : List Cloud) (torp : Torp) (tgt : Sub) :
    Bool :=
  if tgt.owner == torp.owner then false
  else
    let rng := o.sqrt (dist2sq torp.x torp.y tgt.x tgt.y)
    if rng > 2000 then false
    else
      let rel := o.wrap (o.atan2 (tgt.y - torp.y) (tgt.x - torp.x) - torp.heading)
      if |rel| > o.rad 105 then false
      else decide (torpObsSnr o clouds torp tgt ≥ 3)

/-- One torpedo observer's pass of schedule_passive_contacts (the torpedo
passive-sonar loop): gated by passive_sonar_active and the random interval;
emits a torpedo_contact on the first hit and records bearing and time. -/
def torpObserverStep (o : TrigO) (clouds : List Cloud) (ivl jit now : ℚ)
    (torp : Torp) (subs : List Sub) : Torp × List ContactEv :=
  if !torp.passiveSonarActive then (torp, [])
  else if now - torp.lastSonarContact < ivl then (torp, [])
  else match subs.find? (torpObsTargetHit o clouds torp) with
    | some tgt =>
      let rng := o.sqrt (dist2sq torp.x torp.y tgt.x tgt.y)
      let brg := o.wrap (o.atan2 (tgt.y - torp.y) (tgt.x - torp.x) + jit)
      ({ torp with passiveSonarBearing := brg, lastSonarContact := now },
       [{ user := torp.owner, kind := .torpedoContact, observer := torp.id,
          bearing := brg, bearingRel := o.wrap (brg - torp.heading),
          rangeClass := if rng < 800 then .short
            else if rng < 1500 then .medium else .long,
          snr := torpObsSnr o clouds torp tgt,
          contactType := .submarine, time := now }])
    | none => (torp, [])

/-! Submarine physics (update_sub, source lines 830-1004).  planes_effect is
its default 1.0; max_rudder_deg 30, rudder_rate_deg_s 60, yaw_rate_deg_s 3,
pitch_rate_deg_s 12 as in the source defaults. -/

/-- Battery drain commit of update_sub (line 964):
battery = max(0, min(100, battery - drain)). -/
def drainStage (battery drain : ℚ) : ℚ := max 0 (min 100 (battery - drain))

/-- Snorkel recharge block of update_sub (lines 966-985): while snorkeling at
snorkel depth and with diesel fuel left, transfer up to recharge_per_s·dt
from fuel to battery capped by fuel stock and battery headroom, and recharge
the emergency-blow charge.  Returns (battery, fuel, blow_charge). -/
def rechargeStage (dt battery1 fuel blowCharge1 : ℚ) (snorkeling : Bool) :
    ℚ × ℚ × ℚ :=
  if snorkeling ∧ fuel > 0 then
    let delta := min (rechargePerSSnorkel * dt) (min fuel (100 - battery1))
    ((if delta > 0 then clamp (battery1 + delta) 0 100 else battery1),
     (if delta > 0 then max 0 (fuel - delta) else fuel),
     clamp (blowCharge1 + blowRechargePerS * dt) 0 1)
  else (battery1, fuel, blowCharge1)

/-- Mooring / crush-damage block of update_sub (lines 990-998): a refueling
submarine is moored at snorkel depth and takes no crush damage; otherwise
depth beyond crush_depth costs ((depth-crush)/100)·crush_dps·dt health.
Returns (depth, health). -/
def crushStage (dt depth1 health : ℚ) (refuelActive : Bool) : ℚ × ℚ :=
  if refuelActive then (max 0 snorkelDepth, health)
  else if depth1 > crushDepth then
    (depth1, max 0 (health - ((depth1 - crushDepth) / 100 * crushDpsPer100m) * dt))
  else (depth1, health)

/-- Weather-damage block of update_sub (lines 1000-1004): outside the ring,
the worst overlapping cloud's dps is applied. -/
def weatherStage (clouds : List Cloud) (dt x y depth2 health1 : ℚ) : ℚ :=
  let cloudDps := weatherCloudDamage clouds x y depth2
  if isOutsideRing x y ∧ cloudDps > 0 then max 0 (health1 - cloudDps * dt)
  else health1

/-- One physics tick for a submarine.  Radian constants, sin/cos and angle
wrapping go through the oracle; every value the C5 invariant mentions is
computed by exact rational arithmetic exactly as in the source. -/
def updateSub (o : TrigO) (clouds : List Cloud) (dt now : ℚ) (s : Sub) : Sub :=
  let maxRudderRad := o.rad 30
  let maxRudderStep := o.rad 60 * dt
  let rudderCmd := clamp s.rudderCmd (-1) 1
  let targetRudderAngle := rudderCmd * maxRudderRad
  let rudderAngle :=
    if s.battery > 0 then
      clamp (s.rudderAngle + clamp (targetRudderAngle - s.rudderAngle)
        (-maxRudderStep) maxRudderStep) (-maxRudderRad) maxRudderRad
    else s.rudderAngle
  let yawRateRad := o.rad 3
  let headingPair :=
    match s.targetHeading with
    | some th =>
      let headingError := o.wrap (th - s.heading)
      let turnRate := clamp (headingError * (1/2)) (-yawRateRad) yawRateRad
      (o.wrap (s.heading + turnRate * dt),
       if |headingError| < o.rad 2 then none else some th)
    | none =>
      let rudderFrac := if maxRudderRad = 0 then 0 else rudderAngle / maxRudderRad
      (o.wrap (s.heading + yawRateRad * rudderFrac * dt), (none : Option ℚ))
  let heading := headingPair.1
  let pitchRate := o.rad 12
  let targetPitch := clamp (s.planes * 1) (-1) 1 * o.rad 30
  let pitch1 :=
    if s.battery > 0 then
      s.pitch + clamp (targetPitch - s.pitch) (-(pitchRate*dt)) (pitchRate*dt)
    else s.pitch
  let maxSpd := if s.isSnorkeling then subMaxSpeed * (3/4) else subMaxSpeed
  let targetSpeed :=
    if s.battery ≤ 0 ∨ s.refuelActive then 0 else clamp s.throttle 0 1 * maxSpd
  let speed := s.speed + clamp (targetSpeed - s.speed)
    (-(subAcceleration*dt)) (subAcceleration*dt)
  let deadNoBlow := s.battery ≤ 0 ∧ ¬s.blowActive
  let targetDepth := if deadNoBlow then none else s.targetDepth
  let planes : ℚ := if deadNoBlow then 0 else s.planes
  let vDown0 := neutralBias * (1 - s.throttle)
  let vDown1 := if speed < 2 then vDown0 + (1 - speed/2) * (8/10) else vDown0
  let blowOn := s.blowActive ∧ now < s.blowEnd ∧ s.blowCharge > 0
  let vDown2 := if blowOn then vDown1 - blowUpwardMps else vDown1
  let blowCharge1 :=
    if blowOn then clamp (s.blowCharge - dt / blowDurationS) 0 1 else s.blowCharge
  let blowActive1 := if blowOn then s.blowActive else false
  let autopilotOn := targetDepth.isSome ∧ |planes| < 5/100
  let errM := (targetDepth.getD s.depth) - s.depth
  let pitch2 :=
    if autopilotOn then
      let apPitch := clamp (-errM * o.rad (1/2)) (-(o.rad 30)) (o.rad 30)
      pitch1 + clamp (apPitch - pitch1) (-(pitchRate*dt)) (pitchRate*dt)
    else pitch1
  let vDown3 := if autopilotOn then vDown2 + clamp (errM * (2/100)) (-(3/2)) (3/2)
    else vDown2
  let vDown4 := vDown3 - o.sin pitch2 * max 0 speed * (45/100)
  let depth1 := max 0 (s.depth + vDown4 * dt)
  let x := s.x + o.cos heading * speed * dt
  let y := s.y + o.sin heading * speed * dt
  let speedRatio := speed / maxSpd
  let drainMultiplier :=
    if speedRatio > 1/2 then 1 + ((speedRatio - 1/2) * 2)^2 * highSpeedMultiplier
    else 1
  let throttle1 : ℚ := if s.refuelActive then 0 else s.throttle
  let batteryDrain : ℚ :=
    if s.refuelActive then 0
    else s.throttle * drainPerThrottlePerS * drainMultiplier * dt
  let battery1 := drainStage s.battery batteryDrain
  let rs := rechargeStage dt battery1 s.fuel blowCharge1
    (s.isSnorkeling && decide (depth1 ≤ snorkelDepth))
  let isSnorkeling1 :=
    if ¬s.refuelActive ∧ s.isSnorkeling ∧ depth1 > snorkelDepth + snorkelOffHysteresis
    then false else s.isSnorkeling
  let cr := crushStage dt depth1 s.health s.refuelActive
  let health2 := weatherStage clouds dt x y cr.1 cr.2
  { s with rudderCmd := rudderCmd, rudderAngle := rudderAngle,
           heading := heading, targetHeading := headingPair.2,
           pitch := pitch2, speed := speed, targetDepth := targetDepth,
           planes := planes, blowActive := blowActive1,
           blowCharge := rs.2.2, x := x, y := y, depth := cr.1,
           throttle := throttle1, battery := rs.1, fuel := rs.2.1,
           isSnorkeling := isSnorkeling1, health := health2 }

/-! Refueling (process_refueling_mem, source lines 676-761);
refuel_rate_per_s defaults to 50 and 1 fuel unit equals 1 % battery. -/

def refuelRatePerS : ℚ := 50

/-- Clear a submarine's refuel state. -/
def cancelRefuel (s : Sub) : Sub :=
  { s with refuelTimer := 0, refuelActive := false, refuelFuelerId := none }

/-- Index of the nearest fueler with fuel within 50 m 3D, restricted to the
bound fueler when one is recorded. -/
def nearestFuelerIdx (s : Sub) (fuelers : List Fueler) : Option ℕ :=
  (List.range fuelers.length).foldl (fun best i =>
    match fuelers.get? i with
    | none => best
    | some f =>
      if (match s.refuelFuelerId with
          | some fid => fid != f.id
          | none => false) then best
      else if f.fuel ≤ 0 then best
      else
        let dSq := dist3sq s.x s.y s.depth f.x f.y f.depth
        if dSq ≤ 50^2 then
          match best with
          | some j =>
            (match fuelers.get? j with
             | some g =>
               if dSq < dist3sq s.x s.y s.depth g.x g.y g.depth then some i
               else best
             | none => some i)
          | none => some i
        else best) none

/-- Fuel transfer of process_refueling_mem (lines 737-755): move
min(rate·dt, fueler stock, tank space) from the fueler to the submarine,
clamping the fueler at zero.  Returns (sub fuel, fueler fuel, transferred). -/
def transferStage (dt subFuel available : ℚ) : ℚ × ℚ × Bool :=
  let subSpace := max 0 (maxFuelCapacity - subFuel)
  let amount :=
    if refuelRatePerS ≤ 0 then min available subSpace
    else min (refuelRatePerS * dt) (min available subSpace)
  if available > 0 ∧ subSpace > 0 ∧ amount > 0 then
    (subFuel + amount,
     (if available - amount ≤ 0 then 0 else available - amount), true)
  else (subFuel, available, false)

/-- One submarine's pass of process_refueling_mem: refuel only when armed, at
snorkel depth, with tank headroom and the bound fueler in range; 120 s of
warmup; then rate-limited transfer capped by fueler stock and tank space. -/
def refuelSubStep (dt now : ℚ) (s : Sub) (fuelers : List Fueler) :
    Sub × List Fueler :=
  if fuelers.isEmpty then ({ s with refuelTimer := 0 }, fuelers)
  else if ¬s.refuelActive then ({ s with refuelTimer := 0 }, fuelers)
  else if s.fuel ≥ maxFuelCapacity then (cancelRefuel s, fuelers)
  else if ¬s.isSnorkeling ∨ s.depth > snorkelDepth + 1/2 then
    (cancelRefuel s, fuelers)
  else
    match nearestFuelerIdx s fuelers with
    | none => (cancelRefuel s, fuelers)
    | some i =>
      let timer := s.refuelTimer + dt
      if timer < 120 then ({ s with refuelTimer := timer }, fuelers)
      else
        match fuelers.get? i with
        | none => (cancelRefuel s, fuelers)
        | some f =>
          let ts := transferStage dt s.fuel f.fuel
          let fuelers' :=
            if ts.2.2 = true then
              listModify (fun g =>
                { g with fuel := ts.2.1,
                         emptySince := match g.emptySince with
                           | none => some now
                           | some e => some e }) i fuelers
            else fuelers
          if ts.1 ≥ maxFuelCapacity ∨ ts.2.1 ≤ 0 then
            (cancelRefuel { s with fuel := ts.1 }, fuelers')
          else ({ s with fuel := ts.1, refuelTimer := timer }, fuelers')

/-! weather_scan battery accounting (source lines 2672-2752; scanner defaults
battery_cost = 1.0, noise_duration_s = 8.0).  The cloud-detection report does
not change submarine state beyond these two fields. -/

def weatherScanCost : ℚ := 1
def scanNoiseDuration : ℚ := 8

/-- The /weather_scan battery gate: returns the new battery and noise-until
values, or none for the not-enough-battery error. -/
def weatherScanStep (s : Sub) (now : ℚ) : Option (ℚ × ℚ) :=
  if s.battery < weatherScanCost then none
  else some (clamp (s.battery - weatherScanCost) 0 100,
             max s.scannerNoiseUntil (now + scanNoiseDuration))

/-- The submarine register_sub creates (source lines 2020-2038); the battery,
spawn position, depth and heading draws are parameters. -/
def registerNewSub (owner newId : ℕ) (x y depthDraw headingDraw batteryDraw : ℚ) :
    Sub :=
  { id := newId, owner := owner, x := x, y := y, depth := depthDraw,
    heading := headingDraw, pitch := 0, rudderAngle := 0, rudderCmd := 0,
    planes := 0, throttle := 1/5, targetDepth := none, targetHeading := none,
    speed := 0, battery := batteryDraw, fuel := initialFuel, refuelTimer := 0,
    refuelActive := false, refuelFuelerId := none, isSnorkeling := false,
    blowActive := false, blowCharge := 1, blowEnd := 0, health := 100,
    passiveDir := 0, lastReport := 0, scannerNoiseUntil := 0,
    torpedoAmmo := magazineSize, score := 0, kills := 0, pingCooldown := none }

/-! General helper lemmas. -/

lemma clamp_lower {v lo hi : ℚ} : lo ≤ clamp v lo hi := le_max_left lo _

lemma clamp_upper {v lo hi : ℚ} (h : lo ≤ hi) : clamp v lo hi ≤ hi :=
  max_le h (min_le_left hi v)

lemma sq_le_sq_iff_nonneg {a b : ℚ} (ha : 0 ≤ a) (hb : 0 ≤ b) :
    a^2 ≤ b^2 ↔ a ≤ b := by
  constructor
  · intro h; nlinarith
  · intro h; nlinarith

lemma qmod360_eq_self {x : ℚ} (h1 : 0 ≤ x) (h2 : x < 360) : qmod360 x = x := by
  unfold qmod360
  have hf : ⌊x / 360⌋ = 0 := by
    rw [Int.floor_eq_zero_iff]
    constructor
    · positivity
    · rw [div_lt_one (by norm_num)]; simpa using h2
  rw [hf]; push_cast; ring

lemma qmod360_add_int_mul {x : ℚ} (k : ℤ) : qmod360 (x + 360 * k) = qmod360 x := by
  unfold qmod360
  have : (x + 360 * k) / 360 = x / 360 + k := by field_simp; ring
  rw [this, Int.floor_add_int]
  push_cast; ring

lemma compassRoundTrip_eq (c : ℚ) : compassRoundTrip c = qmod360 (180 - c) := by
  unfold compassRoundTrip serverToCompassDeg compassToServerDeg
  have h : qmod360 (90 - c) + 90
      = (180 - c) + 360 * (((-⌊(90 - c) / 360⌋ : ℤ) : ℚ)) := by
    unfold qmod360; push_cast; ring
  rw [h, qmod360_add_int_mul]

/-! Claim C6 — heading conversion round trip. -/

/-- C6 counterexample: a submarine commanded to compass heading 0° (north)
has its heading reported back as 180° by the API's reverse conversion, so
the compass → server → compass composition is not the identity modulo 360
(it should return 0 for input 0, and 180 is not 0 modulo 360). -/
theorem heading_roundtrip_not_identity :
    compassRoundTrip 0 = 180 ∧ qmod360 0 = 0 ∧ (180 : ℚ) ≠ 0 := by
  refine ⟨?_, ?_, by norm_num⟩
  · rw [compassRoundTrip_eq]; norm_num [qmod360]
  · norm_num [qmod360]

/-- C6 amended: the composition compass → server → compass computed by the
API equals θ ↦ (180 − θ) mod 360.  This is a bijection modulo 360 — indeed
an involution, and on [0, 360) applying it twice is the identity — but it is
not the identity map the claim asserts (see the counterexample). -/
theorem heading_roundtrip_involution (c : ℚ) :
    compassRoundTrip c = qmod360 (180 - c) ∧
    compassRoundTrip (compassRoundTrip c) = qmod360 c ∧
    (0 ≤ c → c < 360 → compassRoundTrip (compassRoundTrip c) = c) := by
  have h1 := compassRoundTrip_eq c
  have h2 : compassRoundTrip (compassRoundTrip c) = qmod360 c := by
    rw [h1, compassRoundTrip_eq]
    have : 180 - qmod360 (180 - c) = c + 360 * (⌊(180 - c) / 360⌋ : ℤ) := by
      unfold qmod360; ring
    rw [this, qmod360_add_int_mul]
  exact ⟨h1, h2, fun hc1 hc2 => by rw [h2]; exact qmod360_eq_self hc1 hc2⟩

/-- C6 witness: the involution law evaluated at compass heading 45°. -/
theorem heading_roundtrip_involution_witness :
    compassRoundTrip (compassRoundTrip 45) = 45 :=
  (heading_roundtrip_involution 45).2.2 (by norm_num) (by norm_num)

/-! Claim C10 — snapshots contain only the user's own submarines and
torpedoes, but every fueler in the world. -/

/-- C10: every submarine and torpedo in a user's snapshot belongs to that
user, and every fueler in the world — whoever called it — appears in every
user's snapshot (with its position and fuel, which fuelerPub carries). -/
theorem snapshot_scoping (userId : ℕ) (subs : List Sub) (torps : List Torp)
    (fuelers : List Fueler) (now : ℚ) :
    (∀ p ∈ (sendSnapshotMem userId subs torps fuelers now).subs,
      ∃ s ∈ subs, s.owner = userId ∧ p = subPub s) ∧
    (∀ q ∈ (sendSnapshotMem userId subs torps fuelers now).torpedoes,
      ∃ t ∈ torps, t.owner = userId ∧ q = torpPub t) ∧
    (∀ f ∈ fuelers, fuelerPub f ∈ (sendSnapshotMem userId subs torps fuelers now).fuelers) ∧
    (sendSnapshotMem userId subs torps fuelers now).fuelers = fuelers.map fuelerPub := by
  refine ⟨?_, ?_, ?_, rfl⟩
  · intro p hp
    simp only [sendSnapshotMem, List.mem_map, List.mem_filter] at hp
    obtain ⟨s, ⟨hs, hown⟩, rfl⟩ := hp
    exact ⟨s, hs, by simpa using hown, rfl⟩
  · intro q hq
    simp only [sendSnapshotMem, List.mem_map, List.mem_filter] at hq
    obtain ⟨t, ⟨ht, hown⟩, rfl⟩ := hq
    exact ⟨t, ht, by simpa using hown, rfl⟩
  · intro f hf
    simp only [sendSnapshotMem, List.mem_map]
    exact ⟨f, hf, rfl⟩

/-- C10 witness: a fueler owned by user 2 appears in user 1's snapshot. -/
theorem snapshot_scoping_witness :
    fuelerPub ⟨7, some 2, 100, 200, 0, 500, 500, 0, none⟩ ∈
      (sendSnapshotMem 1 [] [] [⟨7, some 2, 100, 200, 0, 500, 500, 0, none⟩] 0).fuelers :=
  (snapshot_scoping 1 [] [] [⟨7, some 2, 100, 200, 0, 500, 500, 0, none⟩] 0).2.2.1
    _ (by simp)

/-! Claim C1 — graduated blast damage. -/

/-- A torpedo detonating at the origin (command detonate; battery alive). -/
def torpC1 : Torp :=
  { id := 10, owner := 2, parent := 5, x := 0, y := 0, depth := 0,
    targetDepth := none, heading := 0, targetHeading := none, speed := 18,
    targetSpeed := 18, createdAt := 0, wireMode := true, wireLength := 1000,
    passiveSonarActive := true, passiveSonarBearing := 0, lastSonarContact := 0,
    activeSonarEnabled := false, lastActivePing := 0, battery := 50,
    startX := none, startY := none, pendingTurn := none, batteryDead := false,
    expired := false, checkProx := true, markDelete := false }

/-- A healthy submarine at 3D distance exactly 70 m from the origin. -/
def subC1 : Sub :=
  { id := 1, owner := 1, x := 42, y := 56, depth := 0, heading := 0, pitch := 0,
    rudderAngle := 0, rudderCmd := 0, planes := 0, throttle := 1/5,
    targetDepth := none, targetHeading := none, speed := 0, battery := 50,
    fuel := 1000, refuelTimer := 0, refuelActive := false,
    refuelFuelerId := none, isSnorkeling := false, blowActive := false,
    blowCharge := 1, blowEnd := 0, health := 100, passiveDir := 0,
    lastReport := 0, scannerNoiseUntil := 0, torpedoAmmo := 4, score := 0,
    kills := 0, pingCooldown := none }

/-- C1 counterexample: under the default config blast_radius = 60, a
submarine at 3D distance 70 — in the claim's 60 < d ≤ 80 tier, which the
claim says deals 75 damage — takes no damage at all: the detonation leaves
the submarine untouched (health 100, no explosion event), because every tier
is gated by d ≤ blast_radius. -/
theorem blast_damage_tier_cex :
    dist3sq torpC1.x torpC1.y torpC1.depth subC1.x subC1.y subC1.depth = 70^2 ∧
    60 < (70 : ℚ) ∧ (70 : ℚ) ≤ 80 ∧
    detonateTorp blastRadiusDefault torpC1 [subC1] = ([subC1], []) ∧
    subC1.health = 100 ∧ (0 : ℚ) ≠ 75 := by
  refine ⟨by norm_num [dist3sq, torpC1, subC1], by norm_num, by norm_num, ?_,
    rfl, by norm_num⟩
  norm_num [detonateTorp, dist3sq, torpC1, subC1, blastRadiusDefault]

/-- C1 amended: the graduated tiers hold as the claim states them only when
blast_radius ≥ 100; each tier is additionally gated by d ≤ blast_radius
(in particular, with the default blast_radius = 60 every detonation deals 0
damage beyond 60 m).  The first conjunct ties the squared-distance form
used by detonate_torp and explode_torpedo_in_mem to the distance-level tier
function. -/
theorem blast_damage_tiers (blast d : ℚ) (hd : 0 ≤ d) (hb : 100 ≤ blast) :
    (if d^2 ≤ blast^2 then gradDamageSq (d^2) else 0) = blastDamageAt blast d ∧
    (d ≤ 60 → blastDamageAt blast d = 100) ∧
    (60 < d → d ≤ 80 → blastDamageAt blast d = 75) ∧
    (80 < d → d ≤ 100 → blastDamageAt blast d = 50) ∧
    (100 < d → d ≤ blast → blastDamageAt blast d = 25) ∧
    (blast < d → blastDamageAt blast d = 0) := by
  have hb0 : (0:ℚ) ≤ blast := by linarith
  have e1 : d^2 ≤ blast^2 ↔ d ≤ blast := sq_le_sq_iff_nonneg hd hb0
  have e2 : d^2 ≤ 60^2 ↔ d ≤ 60 := sq_le_sq_iff_nonneg hd (by norm_num)
  have e3 : d^2 ≤ 80^2 ↔ d ≤ 80 := sq_le_sq_iff_nonneg hd (by norm_num)
  have e4 : d^2 ≤ 100^2 ↔ d ≤ 100 := sq_le_sq_iff_nonneg hd (by norm_num)
  refine ⟨by simp only [gradDamageSq, blastDamageAt, e1, e2, e3, e4], ?_, ?_, ?_, ?_, ?_⟩
  · intro h; simp only [blastDamageAt]; split_ifs <;> linarith
  · intro h1 h2; simp only [blastDamageAt]; split_ifs <;> linarith
  · intro h1 h2; simp only [blastDamageAt]; split_ifs <;> linarith
  · intro h1 h2; simp only [blastDamageAt]; split_ifs <;> linarith
  · intro h; simp only [blastDamageAt]; split_ifs <;> linarith

/-- C1 witness: with blast_radius 120 the 60 < d ≤ 80 tier deals 75. -/
theorem blast_damage_tiers_witness : blastDamageAt 120 70 = 75 :=
  (blast_damage_tiers 120 70 (by norm_num) (by norm_num)).2.2.1
    (by norm_num) (by norm_num)

/-! Claim C2 — a torpedo never damages its living parent within 150 m before
its battery dies. -/

/-- A live-battery torpedo at the origin whose parent is submarine 5. -/
def torpC2 : Torp :=
  { id := 11, owner := 2, parent := 5, x := 0, y := 0, depth := 0,
    targetDepth := none, heading := 0, targetHeading := none, speed := 18,
    targetSpeed := 18, createdAt := 0, wireMode := true, wireLength := 1000,
    passiveSonarActive := true, passiveSonarBearing := 0, lastSonarContact := 0,
    activeSonarEnabled := false, lastActivePing := 0, battery := 50,
    startX := none, startY := none, pendingTurn := none, batteryDead := false,
    expired := false, checkProx := true, markDelete := false }

/-- The torpedo's parent submarine, alive at 3D distance exactly 50 m. -/
def subC2 : Sub :=
  { id := 5, owner := 2, x := 30, y := 40, depth := 0, heading := 0, pitch := 0,
    rudderAngle := 0, rudderCmd := 0, planes := 0, throttle := 1/5,
    targetDepth := none, targetHeading := none, speed := 0, battery := 50,
    fuel := 1000, refuelTimer := 0, refuelActive := false,
    refuelFuelerId := none, isSnorkeling := false, blowActive := false,
    blowCharge := 1, blowEnd := 0, health := 100, passiveDir := 0,
    lastReport := 0, scannerNoiseUntil := 0, torpedoAmmo := 4, score := 0,
    kills := 0, pingCooldown := none }

/-- C2 counterexample: the command-detonate endpoint (/detonate) is a step of
the system, the torpedo's battery is not dead, and the living parent is only
50 m away — yet the detonation reduces the parent's health from 100 to 0.
The 150 m minimum-safe-distance rule is applied only by the proximity-fuze
stage, not by command detonation. -/
theorem parent_min_safe_distance_cex :
    torpC2.batteryDead = false ∧ subC2.id = torpC2.parent ∧ subC2.health = 100 ∧
    dist3sq torpC2.x torpC2.y torpC2.depth subC2.x subC2.y subC2.depth
      < minSafeDistance^2 ∧
    (detonateTorp blastRadiusDefault torpC2 [subC2]).1
      = [{ subC2 with health := 0 }] := by
  refine ⟨rfl, rfl, rfl, by norm_num [dist3sq, torpC2, subC2, minSafeDistance], ?_⟩
  norm_num [detonateTorp, dist3sq, gradDamageSq, torpC2, subC2, blastRadiusDefault]

/-- C2 amended: in the tick loop's explosion stage the claim does hold — a
torpedo whose battery is not dead and whose living parent is within the
150 m minimum safe distance neither detonates nor changes any submarine's
health, and emits no explosion event.  The exemptions are the battery-dead
terminal detonation (as the claim already allows) and, contrary to the
claim, the command-detonate API (see the counterexample). -/
theorem prox_fuze_parent_safety (blast prox : ℚ) (t : Torp) (subs : List Sub)
    (p : Sub) (hbd : t.batteryDead = false)
    (hp : subs.find? (fun s => s.id == t.parent) = some p)
    (hd : dist3sq t.x t.y t.depth p.x p.y p.depth < minSafeDistance^2) :
    (explosionsTorpStep blast prox t subs).2.1 = subs ∧
    (explosionsTorpStep blast prox t subs).2.2 = [] := by
  unfold explosionsTorpStep
  have hbd' : ¬(t.batteryDead = true ∧ ¬t.markDelete = true) := by simp [hbd]
  rw [if_neg hbd']
  by_cases he : t.expired = true
  · rw [if_pos he]; exact ⟨rfl, rfl⟩
  · rw [if_neg he]
    by_cases hc : t.checkProx = true
    · rw [if_pos hc]
      simp only [hp]
      rw [if_pos (by simpa using hd)]
      exact ⟨rfl, rfl⟩
    · rw [if_neg hc]; exact ⟨rfl, rfl⟩

/-- C2 witness: the safety theorem applied to the concrete torpedo and its
parent 50 m away — the explosion stage leaves the parent untouched. -/
theorem prox_fuze_parent_safety_witness :
    (explosionsTorpStep blastRadiusDefault 30 torpC2 [subC2]).2.1 = [subC2] :=
  (prox_fuze_parent_safety blastRadiusDefault 30 torpC2 [subC2] subC2 rfl rfl
    (by norm_num [dist3sq, torpC2, subC2, minSafeDistance])).1

/-! Claim C3 — register_sub cooldown errors. -/

/-- C3 counterexample: a user at the slot cap (2 living submarines of
max_per_user = 2) whose death timestamps are both zero — so NO death
timestamp lies within the respawn cooldown — still receives the HTTP 400
cooldown error (with cooldown_remaining_s = 0), while the claim's condition
for that error is false at this input. -/
theorem register_cooldown_cex :
    registerSubDecision maxPerUser respawnCooldownS 2 0 0 10000
      = .cooldownErr 0 2 ∧
    ¬ registerCooldownErrClaimed maxPerUser respawnCooldownS 2 0 0 10000 := by
  constructor
  · norm_num [registerSubDecision, activeDeathTimestamps, activeCooldown,
      maxPerUser, respawnCooldownS]
  · norm_num [registerCooldownErrClaimed, activeCooldown, respawnCooldownS]

/-- C3 amended: with zero living submarines register_sub never returns the
cooldown error, exactly as the claim's second half states; but the error
fires precisely when the user has a living submarine, the configured
cooldown is positive, and the number of living submarines reaches
max_per_user minus the number of death timestamps still in cooldown — the
claim's extra requirement that some death timestamp be within the cooldown
window is NOT required (at the plain slot cap the same error is returned
with cooldown_remaining_s = 0). -/
theorem register_cooldown_amended (maxSubs : ℕ) (cooldownS : ℚ)
    (currentSubs : ℕ) (lastD prevD now : ℚ) :
    (currentSubs = 0 →
      registerSubDecision maxSubs cooldownS currentSubs lastD prevD now
        = .proceed) ∧
    ((∃ r a, registerSubDecision maxSubs cooldownS currentSubs lastD prevD now
        = .cooldownErr r a) ↔
      (0 < currentSubs ∧ 0 < cooldownS ∧
       maxSubs - (activeDeathTimestamps cooldownS now lastD prevD).length
         ≤ currentSubs)) := by
  constructor
  · intro h0
    simp [registerSubDecision, h0]
  · unfold registerSubDecision
    dsimp only
    split_ifs with h1 h2
    · exact ⟨fun _ => ⟨h1.1, h1.2, h2⟩, fun _ => ⟨_, _, rfl⟩⟩
    · constructor
      · rintro ⟨r, a, h⟩; cases h
      · rintro ⟨-, -, h3⟩; exact absurd h3 h2
    · constructor
      · rintro ⟨r, a, h⟩; cases h
      · rintro ⟨ha, hb, -⟩; exact absurd ⟨ha, hb⟩ h1

/-- C3 witness: one living submarine plus one death 1000 s ago (within the
7200 s cooldown) yields the cooldown error. -/
theorem register_cooldown_amended_witness :
    ∃ r a, registerSubDecision maxPerUser respawnCooldownS 1 9000 0 10000
      = .cooldownErr r a :=
  (register_cooldown_amended maxPerUser respawnCooldownS 1 9000 0 10000).2.mpr
    ⟨by norm_num, by norm_num [respawnCooldownS],
     by norm_num [activeDeathTimestamps, activeCooldown, maxPerUser,
       respawnCooldownS]⟩

/-! Claim C7 — ping cooldown error. -/

/-- C7 counterexample: a submarine pings successfully at t = 0 with battery 6
(cost 1.5683 for a 20° beam and 100 m range, leaving 4.4317).  A second ping
at t = 1 — within the 5 s cooldown — fails with HTTP 400, but with the
message 'battery too low', NOT 'ping recharging': the battery checks run
before the cooldown check, so the claim's "fails ... with the explicit
message 'ping recharging'" is false at this input. -/
theorem ping_recharging_message_cex :
    pingStep 6 none 0 20 100
      = .accepted (44317/10000) 5 (15683/10000) ∧
    pingStep (44317/10000) (some 5) 1 20 100 = .batteryTooLow ∧
    (1 : ℚ) < 5 ∧
    PingRes.batteryTooLow ≠ PingRes.recharging := by
  refine ⟨?_, ?_, by norm_num, fun h => by cases h⟩
  · norm_num [pingStep, pingCost, clamp, activeMaxAngle, pingBaseCost,
      pingCostPerDegree, pingCostPer100m, pingMinBattery]
  · norm_num [pingStep, pingCost, activeMaxAngle, pingBaseCost,
      pingCostPerDegree, pingCostPer100m, pingMinBattery]

/-- C7 amended: while the stored cooldown has not expired, a further /ping
whose battery passes the min-battery and cost checks fails with exactly the
'ping recharging' 400 error (with insufficient battery the battery errors
fire first instead); once the cooldown time has been reached, the same
request succeeds, deducts the cost and arms a new cooldown 5 s out. -/
theorem ping_cooldown_amended (b pc now beam maxR : ℚ)
    (h1 : pingMinBattery ≤ b)
    (h2 : pingCost (min beam activeMaxAngle) maxR ≤ b) :
    (now < pc → pingStep b (some pc) now beam maxR = .recharging) ∧
    (pc ≤ now → pingStep b (some pc) now beam maxR
      = .accepted (clamp (b - pingCost (min beam activeMaxAngle) maxR) 0 100)
          (now + 5) (pingCost (min beam activeMaxAngle) maxR)) := by
  unfold pingStep
  dsimp only
  rw [if_neg (not_lt.mpr h1), if_neg (not_lt.mpr h2)]
  constructor
  · intro h
    rw [if_pos (by simpa using h)]
  · intro h
    rw [if_neg (by simpa using not_lt.mpr h)]

/-- C7 witness: with ample battery, a ping 1 s after the previous one (whose
cooldown runs to t = 5) is rejected as 'ping recharging'. -/
theorem ping_cooldown_amended_witness :
    pingStep 50 (some 5) 1 20 100 = .recharging :=
  (ping_cooldown_amended 50 5 1 20 100 (by norm_num [pingMinBattery])
    (by norm_num [pingCost, activeMaxAngle, pingBaseCost, pingCostPerDegree,
      pingCostPer100m])).1 (by norm_num)

/-! Claim C9 — launch-then-reload round trip. -/

/-- C9: a submarine with at least one round and battery between the reload
cost and 100 that launches a torpedo keeps its battery unchanged (no launch
cost is charged), loses exactly one round, and an immediate one-round reload
restores torpedo_ammo exactly and debits exactly
reload_battery_cost_per_torp from the battery. -/
theorem launch_reload_roundtrip (o : TrigO) (s : Sub) (rangeReq : ℚ)
    (newId : ℕ) (now : ℚ) (h1 : 1 ≤ s.torpedoAmmo)
    (h2 : s.torpedoAmmo ≤ magazineSize)
    (h3 : reloadBatteryCostPerTorp ≤ s.battery) (h4 : s.battery ≤ 100) :
    ∃ t, launchTorpedo o s rangeReq newId now
        = some ({ s with torpedoAmmo := s.torpedoAmmo - 1 }, t) ∧
      ({ s with torpedoAmmo := s.torpedoAmmo - 1 } : Sub).battery = s.battery ∧
      reloadTorpedoes { s with torpedoAmmo := s.torpedoAmmo - 1 } (some 1)
        = .reloaded { s with battery := s.battery - reloadBatteryCostPerTorp,
                             torpedoAmmo := s.torpedoAmmo } 1 := by
  refine ⟨launchedTorp o s rangeReq newId now, ?_, rfl, ?_⟩
  · unfold launchTorpedo
    rw [if_neg (by omega)]
  · unfold reloadTorpedoes
    dsimp only
    rw [if_neg (by
      have h2' : s.torpedoAmmo ≤ 4 := h2
      simp only [magazineSize]
      omega)]
    rw [if_neg (by norm_num)]
    have hmin : min 1 (max 0 (magazineSize - (s.torpedoAmmo - 1))) = 1 :=
      min_eq_left (le_max_of_le_right (by
        have h2' : s.torpedoAmmo ≤ 4 := h2
        simp only [magazineSize]
        omega))
    rw [hmin]
    dsimp only
    rw [if_neg (by push_cast; rw [mul_one]; exact not_lt.mpr h3)]
    have hc0 : (0:ℚ) ≤ reloadBatteryCostPerTorp := by
      norm_num [reloadBatteryCostPerTorp]
    have hclamp : clamp (s.battery - reloadBatteryCostPerTorp * ((1:ℤ) : ℚ)) 0 100
        = s.battery - reloadBatteryCostPerTorp := by
      unfold clamp
      push_cast
      rw [mul_one, min_eq_right (by linarith), max_eq_right (by linarith)]
    rw [hclamp]
    have hammo : s.torpedoAmmo - 1 + 1 = s.torpedoAmmo := by omega
    rw [hammo]

/-- A full-magazine submarine used to instantiate the C9 round trip. -/
def subC9 : Sub :=
  { id := 3, owner := 1, x := 0, y := 0, depth := 100, heading := 0, pitch := 0,
    rudderAngle := 0, rudderCmd := 0, planes := 0, throttle := 1/5,
    targetDepth := none, targetHeading := none, speed := 0, battery := 50,
    fuel := 1000, refuelTimer := 0, refuelActive := false,
    refuelFuelerId := none, isSnorkeling := false, blowActive := false,
    blowCharge := 1, blowEnd := 0, health := 100, passiveDir := 0,
    lastReport := 0, scannerNoiseUntil := 0, torpedoAmmo := 4, score := 0,
    kills := 0, pingCooldown := none }

/-- C9 witness: the round trip evaluated on a concrete submarine with 4
rounds and battery 50. -/
theorem launch_reload_roundtrip_witness :
    reloadTorpedoes { subC9 with torpedoAmmo := subC9.torpedoAmmo - 1 } (some 1)
      = .reloaded { subC9 with battery := subC9.battery - reloadBatteryCostPerTorp,
                               torpedoAmmo := subC9.torpedoAmmo } 1 := by
  obtain ⟨t, -, -, h⟩ := launch_reload_roundtrip trigZero subC9 1000 99 0
    (by norm_num [subC9]) (by norm_num [subC9, magazineSize])
    (by norm_num [subC9, reloadBatteryCostPerTorp]) (by norm_num [subC9])
  exact h

/-! Claim C4 — contacts per observer per tick. -/

/-- Oracle whose sqrt returns 100, matching the concrete worlds below where
every pairwise squared distance is 10000. -/
def trigR100 : TrigO := { trigZero with sqrt := fun _ => 100 }

/-- Observer submarine of user 1 at the origin, cooldown long expired. -/
def obsC4 : Sub :=
  { id := 1, owner := 1, x := 0, y := 0, depth := 0, heading := 0, pitch := 0,
    rudderAngle := 0, rudderCmd := 0, planes := 0, throttle := 1/5,
    targetDepth := none, targetHeading := none, speed := 0, battery := 50,
    fuel := 1000, refuelTimer := 0, refuelActive := false,
    refuelFuelerId := none, isSnorkeling := false, blowActive := false,
    blowCharge := 1, blowEnd := 0, health := 100, passiveDir := 0,
    lastReport := 0, scannerNoiseUntil := 0, torpedoAmmo := 4, score := 0,
    kills := 0, pingCooldown := none }

/-- A quiet foreign submarine 100 m east of the observer. -/
def tgtC4 : Sub :=
  { id := 2, owner := 2, x := 100, y := 0, depth := 10, heading := 0, pitch := 0,
    rudderAngle := 0, rudderCmd := 0, planes := 0, throttle := 1/5,
    targetDepth := none, targetHeading := none, speed := 0, battery := 50,
    fuel := 1000, refuelTimer := 0, refuelActive := false,
    refuelFuelerId := none, isSnorkeling := false, blowActive := false,
    blowCharge := 1, blowEnd := 0, health := 100, passiveDir := 0,
    lastReport := 0, scannerNoiseUntil := 0, torpedoAmmo := 4, score := 0,
    kills := 0, pingCooldown := none }

/-- A foreign torpedo 100 m east of the observer. -/
def torpC4 : Torp :=
  { id := 21, owner := 2, parent := 2, x := 100, y := 0, depth := 10,
    targetDepth := none, heading := 0, targetHeading := none, speed := 6,
    targetSpeed := 6, createdAt := 0, wireMode := true, wireLength := 1000,
    passiveSonarActive := true, passiveSonarBearing := 0, lastSonarContact := 0,
    activeSonarEnabled := false, lastActivePing := 0, battery := 100,
    startX := none, startY := none, pendingTurn := none, batteryDead := false,
    expired := false, checkProx := false, markDelete := false }

/-- C4 counterexample: with a detectable foreign submarine AND a detectable
foreign torpedo in range, one observer emits TWO contact events in a single
passive-sonar pass — the submarine loop and the torpedo loop each emit one —
so "at most one contact event per observer per tick over all candidate
targets combined" is false. -/
theorem passive_two_contacts_cex :
    (passiveObserverStep trigR100 [] 3 0 0 100 obsC4 [tgtC4] [torpC4]).2.length
      = 2 ∧ ¬(2 ≤ 1) := by
  constructor
  · norm_num [passiveObserverStep, subTargetHit, subTargetSnr, torpTargetHit,
      torpTargetSnr, mkSubContact, mkTorpContact, weatherLoss, dist2sq,
      trigR100, trigZero, obsC4, tgtC4, torpC4, baseSnr, speedNoiseGain,
      snorkelBonus, activeMaxRange, subMaxSpeed, cloudCloseHearRange,
      scannerNoiseBonusDb, List.find?]
  · norm_num

/-- C4 amended: per tick each submarine observer emits at most one contact
per target class — at most one submarine contact and at most one torpedo
contact, hence at most two in total (not one, as claimed); whenever any
contact is emitted the observer's last_report is set to the current tick
time, and an observer that emits nothing is unchanged. -/
theorem passive_contacts_per_observer (o : TrigO) (clouds : List Cloud)
    (ivl jitS jitT now : ℚ) (obs : Sub) (subs : List Sub) (torps : List Torp) :
    (passiveObserverStep o clouds ivl jitS jitT now obs subs torps).2.length ≤ 2 ∧
    List.countP (fun e => match e.contactType with
        | CType.torpedo => true | _ => false)
      (passiveObserverStep o clouds ivl jitS jitT now obs subs torps).2 ≤ 1 ∧
    List.countP (fun e => match e.contactType with
        | CType.torpedo => false | _ => true)
      (passiveObserverStep o clouds ivl jitS jitT now obs subs torps).2 ≤ 1 ∧
    ((passiveObserverStep o clouds ivl jitS jitT now obs subs torps).2 ≠ [] →
      (passiveObserverStep o clouds ivl jitS jitT now obs subs torps).1.lastReport
        = now) ∧
    ((passiveObserverStep o clouds ivl jitS jitT now obs subs torps).2 = [] →
      (passiveObserverStep o clouds ivl jitS jitT now obs subs torps).1 = obs) := by
  unfold passiveObserverStep
  by_cases h1 : now - obs.lastReport < ivl
  · rw [if_pos h1]; simp
  · rw [if_neg h1]
    dsimp only
    cases hs : subs.find? (subTargetHit o clouds now obs) with
    | none =>
      cases ht : torps.find? (torpTargetHit o clouds obs) with
      | none => simp
      | some tp => simp [mkTorpContact]
    | some tgt =>
      cases ht : torps.find? (torpTargetHit o clouds obs) with
      | none =>
        by_cases hb : tgt.blowActive <;> simp [mkSubContact, hb]
      | some tp =>
        by_cases hb : tgt.blowActive <;> simp [mkSubContact, mkTorpContact, hb]

/-- C4 witness: the per-observer bound applied to the concrete two-target
world: contacts were emitted, so last_report is advanced to the tick time. -/
theorem passive_contacts_per_observer_witness :
    (passiveObserverStep trigR100 [] 3 0 0 100 obsC4 [tgtC4] [torpC4]).1.lastReport
      = 100 :=
  (passive_contacts_per_observer trigR100 [] 3 0 0 100 obsC4 [tgtC4] [torpC4]).2.2.2.1
    (by
      intro h
      norm_num [passiveObserverStep, subTargetHit, subTargetSnr, torpTargetHit,
        torpTargetSnr, mkSubContact, mkTorpContact, weatherLoss, dist2sq,
        trigR100, trigZero, obsC4, tgtC4, torpC4, baseSnr, speedNoiseGain,
        snorkelBonus, activeMaxRange, subMaxSpeed, cloudCloseHearRange,
        scannerNoiseBonusDb, List.find?] at h
      exact List.cons_ne_nil _ _ h)

/-! Claim C8 — passive sonar supposedly considers only foreign units. -/

/-- Observer submarine of user 1 (id 1). -/
def obsC8 : Sub :=
  { id := 1, owner := 1, x := 0, y := 0, depth := 0, heading := 0, pitch := 0,
    rudderAngle := 0, rudderCmd := 0, planes := 0, throttle := 1/5,
    targetDepth := none, targetHeading := none, speed := 0, battery := 50,
    fuel := 1000, refuelTimer := 0, refuelActive := false,
    refuelFuelerId := none, isSnorkeling := false, blowActive := false,
    blowCharge := 1, blowEnd := 0, health := 100, passiveDir := 0,
    lastReport := 0, scannerNoiseUntil := 0, torpedoAmmo := 4, score := 0,
    kills := 0, pingCooldown := none }

/-- A SECOND submarine of the SAME user 1 (id 2), 100 m east. -/
def tgtC8 : Sub :=
  { id := 2, owner := 1, x := 100, y := 0, depth := 10, heading := 0, pitch := 0,
    rudderAngle := 0, rudderCmd := 0, planes := 0, throttle := 1/5,
    targetDepth := none, targetHeading := none, speed := 0, battery := 50,
    fuel := 1000, refuelTimer := 0, refuelActive := false,
    refuelFuelerId := none, isSnorkeling := false, blowActive := false,
    blowCharge := 1, blowEnd := 0, health := 100, passiveDir := 0,
    lastReport := 0, scannerNoiseUntil := 0, torpedoAmmo := 4, score := 0,
    kills := 0, pingCooldown := none }

/-- A foreign torpedo (user 2) 100 m east, used by the C8 witness. -/
def torpC8 : Torp :=
  { id := 22, owner := 2, parent := 9, x := 100, y := 0, depth := 10,
    targetDepth := none, heading := 0, targetHeading := none, speed := 6,
    targetSpeed := 6, createdAt := 0, wireMode := true, wireLength := 1000,
    passiveSonarActive := true, passiveSonarBearing := 0, lastSonarContact := 0,
    activeSonarEnabled := false, lastActivePing := 0, battery := 100,
    startX := none, startY := none, pendingTurn := none, batteryDead := false,
    expired := false, checkProx := false, markDelete := false }

/-- C8 counterexample: the submarine-target loop skips a candidate only when
owner AND id both match the observer — i.e. only the observer itself — so a
user's OTHER own submarine is a valid contact candidate: here the observer
(user 1) emits a passive contact caused by its own user's second submarine,
refuting "an observer never reports a contact on a submarine belonging to
its own user". -/
theorem own_sub_contact_cex :
    tgtC8.owner = obsC8.owner ∧ tgtC8.id ≠ obsC8.id ∧
    subTargetHit trigR100 [] 100 obsC8 tgtC8 = true ∧
    (passiveObserverStep trigR100 [] 3 0 0 100 obsC8 [tgtC8] []).2
      = [mkSubContact trigR100 [] 0 100 obsC8 tgtC8] := by
  refine ⟨rfl, by norm_num [tgtC8, obsC8], ?_, ?_⟩
  · norm_num [subTargetHit, subTargetSnr, weatherLoss, dist2sq, trigR100,
      trigZero, obsC8, tgtC8, baseSnr, speedNoiseGain, snorkelBonus,
      activeMaxRange, subMaxSpeed, cloudCloseHearRange, scannerNoiseBonusDb]
  · norm_num [passiveObserverStep, subTargetHit, subTargetSnr, weatherLoss,
      dist2sq, trigR100, trigZero, obsC8, tgtC8, baseSnr, speedNoiseGain,
      snorkelBonus, activeMaxRange, subMaxSpeed, cloudCloseHearRange,
      scannerNoiseBonusDb, List.find?]

/-- C8 amended: torpedo targets of a submarine observer and submarine
targets of a torpedo observer are indeed restricted to foreign owners; but
the submarine-target loop excludes only the observer itself, so contacts on
the observer's own user's OTHER submarines are possible (counterexample). -/
theorem passive_owner_filters (o : TrigO) (clouds : List Cloud) (now : ℚ)
    (obs tgt : Sub) (torp tObs : Torp) :
    (subTargetHit o clouds now obs tgt = true →
      ¬(tgt.owner = obs.owner ∧ tgt.id = obs.id)) ∧
    (torpTargetHit o clouds obs torp = true → torp.owner ≠ obs.owner) ∧
    (torpObsTargetHit o clouds tObs tgt = true → tgt.owner ≠ tObs.owner) := by
  refine ⟨?_, ?_, ?_⟩
  · intro h
    rintro ⟨h1, h2⟩
    unfold subTargetHit at h
    rw [if_pos (by simp [h1, h2])] at h
    cases h
  · intro h hcontra
    unfold torpTargetHit at h
    rw [if_pos (by simp [hcontra])] at h
    cases h
  · intro h hcontra
    unfold torpObsTargetHit at h
    rw [if_pos (by simp [hcontra])] at h
    cases h

/-- C8 witness: the foreign-owner filter applied to a concrete detected
foreign torpedo — its owner differs from the observer's. -/
theorem passive_owner_filters_witness : torpC8.owner ≠ obsC8.owner :=
  (passive_owner_filters trigR100 [] 100 obsC8 obsC8 torpC8 torpC8).2.1
    (by norm_num [torpTargetHit, torpTargetSnr, weatherLoss, dist2sq, trigR100,
      trigZero, obsC8, torpC8, baseSnr, speedNoiseGain, activeMaxRange,
      cloudCloseHearRange])

/-! Claim C5 — submarine state bounds. -/

/-- The quantified invariant of claim C5 for one submarine. -/
def SubInv (s : Sub) : Prop :=
  0 ≤ s.battery ∧ s.battery ≤ 100 ∧ 0 ≤ s.fuel ∧ s.fuel ≤ maxFuelCapacity ∧
  0 ≤ s.torpedoAmmo ∧ s.torpedoAmmo ≤ magazineSize ∧
  0 ≤ s.blowCharge ∧ s.blowCharge ≤ 1 ∧ 0 ≤ s.health ∧ s.health ≤ 100

lemma ite_le_lower {c : Prop} [Decidable c] {a b lo : ℚ}
    (ha : c → lo ≤ a) (hb : ¬c → lo ≤ b) : lo ≤ ite c a b := by
  by_cases h : c
  · rw [if_pos h]; exact ha h
  · rw [if_neg h]; exact hb h

lemma ite_le_upper {c : Prop} [Decidable c] {a b hi : ℚ}
    (ha : c → a ≤ hi) (hb : ¬c → b ≤ hi) : ite c a b ≤ hi := by
  by_cases h : c
  · rw [if_pos h]; exact ha h
  · rw [if_neg h]; exact hb h

lemma drainStage_bounds (b d : ℚ) : 0 ≤ drainStage b d ∧ drainStage b d ≤ 100 :=
  ⟨le_max_left _ _, max_le (by norm_num) (min_le_left _ _)⟩

lemma rechargeStage_bounds (dt b f c : ℚ) (sn : Bool)
    (hb0 : 0 ≤ b) (hb1 : b ≤ 100) (hf0 : 0 ≤ f) (hf1 : f ≤ maxFuelCapacity)
    (hc0 : 0 ≤ c) (hc1 : c ≤ 1) :
    0 ≤ (rechargeStage dt b f c sn).1 ∧ (rechargeStage dt b f c sn).1 ≤ 100 ∧
    0 ≤ (rechargeStage dt b f c sn).2.1 ∧
    (rechargeStage dt b f c sn).2.1 ≤ maxFuelCapacity ∧
    0 ≤ (rechargeStage dt b f c sn).2.2 ∧ (rechargeStage dt b f c sn).2.2 ≤ 1 := by
  unfold rechargeStage
  by_cases h : (sn = true) ∧ f > 0
  · rw [if_pos h]
    dsimp only
    refine ⟨?_, ?_, ?_, ?_, clamp_lower, clamp_upper (by norm_num)⟩
    · exact ite_le_lower (fun _ => clamp_lower) (fun _ => hb0)
    · exact ite_le_upper (fun _ => clamp_upper (by norm_num)) (fun _ => hb1)
    · exact ite_le_lower (fun _ => le_max_left _ _) (fun _ => hf0)
    · refine ite_le_upper (fun hd => ?_) (fun _ => hf1)
      exact max_le (by norm_num [maxFuelCapacity]) (by linarith)
  · rw [if_neg h]
    exact ⟨hb0, hb1, hf0, hf1, hc0, hc1⟩

lemma crushStage_health (dt d1 h : ℚ) (r : Bool) (hdt : 0 ≤ dt) (hh0 : 0 ≤ h) :
    0 ≤ (crushStage dt d1 h r).2 ∧ (crushStage dt d1 h r).2 ≤ h := by
  unfold crushStage
  by_cases hr : r = true
  · rw [if_pos hr]; exact ⟨hh0, le_refl h⟩
  · rw [if_neg hr]
    by_cases hc : d1 > crushDepth
    · rw [if_pos hc]
      dsimp only
      have hx : 0 ≤ (d1 - crushDepth) / 100 * crushDpsPer100m * dt := by
        apply mul_nonneg
        apply mul_nonneg
        · apply div_nonneg
          · simp only [crushDepth] at hc ⊢; linarith
          · norm_num
        · norm_num [crushDpsPer100m]
        · exact hdt
      exact ⟨le_max_left _ _, max_le hh0 (by linarith)⟩
    · rw [if_neg hc]; exact ⟨hh0, le_refl h⟩

lemma weatherStage_health (clouds : List Cloud) (dt x y d2 h1 : ℚ)
    (hdt : 0 ≤ dt) (hh0 : 0 ≤ h1) :
    0 ≤ weatherStage clouds dt x y d2 h1 ∧
    weatherStage clouds dt x y d2 h1 ≤ h1 := by
  unfold weatherStage
  dsimp only
  constructor
  · exact ite_le_lower (fun _ => le_max_left _ _) (fun _ => hh0)
  · refine ite_le_upper (fun hw => ?_) (fun _ => le_refl h1)
    have : 0 ≤ weatherCloudDamage clouds x y d2 * dt :=
      mul_nonneg (le_of_lt hw.2) hdt
    exact max_le hh0 (by linarith)

lemma updateSub_inv (o : TrigO) (clouds : List Cloud) (dt now : ℚ) (s : Sub)
    (hdt : 0 ≤ dt) (hs : SubInv s) : SubInv (updateSub o clouds dt now s) := by
  obtain ⟨hb0, hb1, hf0, hf1, ha0, ha1, hc0, hc1, hh0, hh1⟩ := hs
  have hbc1 : 0 ≤ (if s.blowActive = true ∧ now < s.blowEnd ∧ s.blowCharge > 0
      then clamp (s.blowCharge - dt / blowDurationS) 0 1 else s.blowCharge) :=
    ite_le_lower (fun _ => clamp_lower) (fun _ => hc0)
  have hbc2 : (if s.blowActive = true ∧ now < s.blowEnd ∧ s.blowCharge > 0
      then clamp (s.blowCharge - dt / blowDurationS) 0 1 else s.blowCharge) ≤ 1 :=
    ite_le_upper (fun _ => clamp_upper (by norm_num)) (fun _ => hc1)
  simp only [updateSub, SubInv]
  refine ⟨?_, ?_, ?_, ?_, ha0, ha1, ?_, ?_, ?_, ?_⟩
  · exact (rechargeStage_bounds _ _ _ _ _ (drainStage_bounds _ _).1
      (drainStage_bounds _ _).2 hf0 hf1 hbc1 hbc2).1
  · exact (rechargeStage_bounds _ _ _ _ _ (drainStage_bounds _ _).1
      (drainStage_bounds _ _).2 hf0 hf1 hbc1 hbc2).2.1
  · exact (rechargeStage_bounds _ _ _ _ _ (drainStage_bounds _ _).1
      (drainStage_bounds _ _).2 hf0 hf1 hbc1 hbc2).2.2.1
  · exact (rechargeStage_bounds _ _ _ _ _ (drainStage_bounds _ _).1
      (drainStage_bounds _ _).2 hf0 hf1 hbc1 hbc2).2.2.2.1
  · exact (rechargeStage_bounds _ _ _ _ _ (drainStage_bounds _ _).1
      (drainStage_bounds _ _).2 hf0 hf1 hbc1 hbc2).2.2.2.2.1
  · exact (rechargeStage_bounds _ _ _ _ _ (drainStage_bounds _ _).1
      (drainStage_bounds _ _).2 hf0 hf1 hbc1 hbc2).2.2.2.2.2
  · exact (weatherStage_health _ _ _ _ _ _ hdt
      (crushStage_health _ _ _ _ hdt hh0).1).1
  · exact le_trans (weatherStage_health _ _ _ _ _ _ hdt
      (crushStage_health _ _ _ _ hdt hh0).1).2
      (le_trans (crushStage_health _ _ _ _ hdt hh0).2 hh1)

lemma transferStage_subFuel (dt f av : ℚ) (hf0 : 0 ≤ f) (hf1 : f ≤ maxFuelCapacity) :
    0 ≤ (transferStage dt f av).1 ∧ (transferStage dt f av).1 ≤ maxFuelCapacity := by
  unfold transferStage
  rw [apply_ite Prod.fst]
  dsimp only
  have hsp : max 0 (maxFuelCapacity - f) = maxFuelCapacity - f :=
    max_eq_right (by linarith)
  rw [hsp]
  constructor
  · exact ite_le_lower (fun h => by linarith [h.2.2]) (fun _ => hf0)
  · refine ite_le_upper (fun h => ?_) (fun _ => hf1)
    have hamt : (if refuelRatePerS ≤ 0 then min av (maxFuelCapacity - f)
        else min (refuelRatePerS * dt) (min av (maxFuelCapacity - f)))
        ≤ maxFuelCapacity - f :=
      ite_le_upper (fun _ => min_le_right _ _)
        (fun _ => le_trans (min_le_right _ _) (min_le_right _ _))
    linarith

lemma refuelSubStep_inv (dt now : ℚ) (s : Sub) (fuelers : List Fueler)
    (hs : SubInv s) : SubInv (refuelSubStep dt now s fuelers).1 := by
  obtain ⟨hb0, hb1, hf0, hf1, ha0, ha1, hc0, hc1, hh0, hh1⟩ := hs
  unfold refuelSubStep
  by_cases h1 : fuelers.isEmpty = true
  · rw [if_pos h1]
    exact ⟨hb0, hb1, hf0, hf1, ha0, ha1, hc0, hc1, hh0, hh1⟩
  rw [if_neg h1]
  by_cases h2 : ¬s.refuelActive = true
  · rw [if_pos h2]
    exact ⟨hb0, hb1, hf0, hf1, ha0, ha1, hc0, hc1, hh0, hh1⟩
  rw [if_neg h2]
  by_cases h3 : s.fuel ≥ maxFuelCapacity
  · rw [if_pos h3]
    exact ⟨hb0, hb1, hf0, hf1, ha0, ha1, hc0, hc1, hh0, hh1⟩
  rw [if_neg h3]
  by_cases h4 : ¬s.isSnorkeling = true ∨ s.depth > snorkelDepth + 1/2
  · rw [if_pos h4]
    exact ⟨hb0, hb1, hf0, hf1, ha0, ha1, hc0, hc1, hh0, hh1⟩
  rw [if_neg h4]
  cases hn : nearestFuelerIdx s fuelers with
  | none =>
    simp only [hn]
    exact ⟨hb0, hb1, hf0, hf1, ha0, ha1, hc0, hc1, hh0, hh1⟩
  | some i =>
    simp only [hn]
    by_cases h5 : s.refuelTimer + dt < 120
    · rw [if_pos h5]
      exact ⟨hb0, hb1, hf0, hf1, ha0, ha1, hc0, hc1, hh0, hh1⟩
    rw [if_neg h5]
    cases hg : fuelers.get? i with
    | none =>
      simp only [hg]
      exact ⟨hb0, hb1, hf0, hf1, ha0, ha1, hc0, hc1, hh0, hh1⟩
    | some f =>
      simp only [hg]
      rw [apply_ite Prod.fst]
      dsimp only
      obtain ⟨ht0, ht1⟩ := transferStage_subFuel dt s.fuel f.fuel hf0 hf1
      by_cases h6 : (transferStage dt s.fuel f.fuel).1 ≥ maxFuelCapacity ∨
          (transferStage dt s.fuel f.fuel).2.1 ≤ 0
      · rw [if_pos h6]
        exact ⟨hb0, hb1, ht0, ht1, ha0, ha1, hc0, hc1, hh0, hh1⟩
      · rw [if_neg h6]
        exact ⟨hb0, hb1, ht0, ht1, ha0, ha1, hc0, hc1, hh0, hh1⟩

lemma gradDamageSq_nonneg (d : ℚ) : 0 ≤ gradDamageSq d := by
  unfold gradDamageSq; split_ifs <;> norm_num

lemma listModify_forall {α : Type} (P : α → Prop) (f : α → α)
    (hf : ∀ a, P a → P (f a)) :
    ∀ (i : ℕ) (l : List α), (∀ a ∈ l, P a) → ∀ a ∈ listModify f i l, P a := by
  intro i l
  induction l generalizing i with
  | nil =>
    intro h a ha
    cases i <;> simp only [listModify] at ha <;> cases ha
  | cons x xs ih =>
    intro h a ha
    cases i with
    | zero =>
      simp only [listModify] at ha
      rcases List.mem_cons.mp ha with rfl | hm
      · exact hf x (h x (by simp))
      · exact h a (by simp [hm])
    | succ n =>
      simp only [listModify] at ha
      rcases List.mem_cons.mp ha with rfl | hm
      · exact h a (by simp)
      · exact ih n (fun b hb => h b (by simp [hb])) a hm

lemma SubInv_killScore (k : Sub) (h : SubInv k) :
    SubInv { k with kills := k.kills + 1, score := k.score + 100 } := by
  obtain ⟨b0, b1, f0, f1, a0, a1, c0, c1, h0, h1⟩ := h
  exact ⟨b0, b1, f0, f1, a0, a1, c0, c1, h0, h1⟩

lemma bumpKill_inv (oid : ℕ) (subs : List Sub) (h : ∀ a ∈ subs, SubInv a) :
    ∀ a ∈ bumpKill oid subs, SubInv a := by
  unfold bumpKill
  cases hj : subs.findIdx? (fun sub => sub.owner == oid) with
  | none => simpa using h
  | some j =>
    simp only
    exact listModify_forall SubInv _ (fun a ha => SubInv_killScore a ha) j subs h

lemma SubInv_damaged (v : Sub) (d : ℚ) (hd : 0 ≤ d) (h : SubInv v) :
    SubInv { v with health := max 0 (v.health - d) } := by
  obtain ⟨b0, b1, f0, f1, a0, a1, c0, c1, h0, h1⟩ := h
  exact ⟨b0, b1, f0, f1, a0, a1, c0, c1, le_max_left _ _,
    max_le (by norm_num) (by linarith)⟩

lemma explodeVictimStep_inv (blast : ℚ) (t : Torp)
    (acc : List Sub × List ExplosionEv) (i : ℕ)
    (h : ∀ a ∈ acc.1, SubInv a) :
    ∀ a ∈ (explodeVictimStep blast t acc i).1, SubInv a := by
  unfold explodeVictimStep
  cases hg : acc.1.get? i with
  | none => simpa using h
  | some s =>
    simp only
    by_cases hc : dist3sq t.x t.y t.depth s.x s.y s.depth ≤ blast^2 ∧ s.health > 0
    · rw [if_pos hc]
      dsimp only
      have hmod : ∀ a ∈ listModify
          (fun v => { v with health := max 0 (v.health -
            gradDamageSq (dist3sq t.x t.y t.depth s.x s.y s.depth)) }) i acc.1,
          SubInv a :=
        listModify_forall SubInv _
          (fun a ha => SubInv_damaged a _ (gradDamageSq_nonneg _) ha) i acc.1 h
      by_cases h2 : s.health > 0 ∧
          max 0 (s.health - gradDamageSq (dist3sq t.x t.y t.depth s.x s.y s.depth)) ≤ 0
      · rw [if_pos h2]
        exact bumpKill_inv t.owner _ hmod
      · rw [if_neg h2]
        exact hmod
    · rw [if_neg hc]
      exact h

lemma foldl_explodeVictim_inv (blast : ℚ) (t : Torp) :
    ∀ (idxs : List ℕ) (acc : List Sub × List ExplosionEv),
      (∀ a ∈ acc.1, SubInv a) →
      ∀ a ∈ (idxs.foldl (explodeVictimStep blast t) acc).1, SubInv a := by
  intro idxs
  induction idxs with
  | nil => intro acc h; simpa using h
  | cons i rest ih =>
    intro acc h
    rw [List.foldl_cons]
    exact ih _ (explodeVictimStep_inv blast t acc i h)

lemma explodeTorpedo_inv (blast : ℚ) (t : Torp) (subs : List Sub)
    (h : ∀ a ∈ subs, SubInv a) :
    ∀ a ∈ (explodeTorpedo blast t subs).1, SubInv a :=
  foldl_explodeVictim_inv blast t (List.range subs.length) (subs, []) h

lemma detonateTorp_inv (blast : ℚ) (t : Torp) :
    ∀ (subs : List Sub), (∀ a ∈ subs, SubInv a) →
      ∀ a ∈ (detonateTorp blast t subs).1, SubInv a := by
  intro subs
  induction subs with
  | nil => intro _ a ha; simp [detonateTorp] at ha
  | cons x xs ih =>
    intro h a ha
    rw [detonateTorp] at ha
    dsimp only at ha
    by_cases hc : dist3sq t.x t.y t.depth x.x x.y x.depth ≤ blast^2
    · rw [if_pos hc] at ha
      rcases List.mem_cons.mp ha with rfl | hm
      · exact SubInv_damaged x _ (gradDamageSq_nonneg _)
          (h x (List.mem_cons_self _ _))
      · exact ih (fun b hb => h b (List.mem_cons_of_mem _ hb)) a hm
    · rw [if_neg hc] at ha
      rcases List.mem_cons.mp ha with rfl | hm
      · exact h a (List.mem_cons_self _ _)
      · exact ih (fun b hb => h b (List.mem_cons_of_mem _ hb)) a hm

lemma launchTorpedo_inv (o : TrigO) (s : Sub) (r : ℚ) (nid : ℕ) (now : ℚ)
    (s1 : Sub) (t : Torp) (hs : SubInv s)
    (h : launchTorpedo o s r nid now = some (s1, t)) : SubInv s1 := by
  obtain ⟨b0, b1, f0, f1, a0, a1, c0, c1, h0, h1⟩ := hs
  unfold launchTorpedo at h
  by_cases ha : s.torpedoAmmo ≤ 0
  · rw [if_pos ha] at h; cases h
  · rw [if_neg ha] at h
    injection h with h
    injection h with h1' h2'
    subst h1'
    refine ⟨b0, b1, f0, f1, ?_, ?_, c0, c1, h0, h1⟩
    · show 0 ≤ s.torpedoAmmo - 1
      omega
    · show s.torpedoAmmo - 1 ≤ magazineSize
      omega

lemma reloadTorpedoes_inv (s : Sub) (c : Option ℤ) (s1 : Sub) (n : ℤ)
    (hs : SubInv s) (h : reloadTorpedoes s c = .reloaded s1 n) : SubInv s1 := by
  obtain ⟨b0, b1, f0, f1, a0, a1, c0, c1, h0, h1⟩ := hs
  unfold reloadTorpedoes at h
  dsimp only at h
  by_cases hm : max 0 (magazineSize - s.torpedoAmmo) ≤ 0
  · rw [if_pos hm] at h; cases h
  rw [if_neg hm] at h
  have hmiss0 : 0 < max 0 (magazineSize - s.torpedoAmmo) := by
    rcases lt_or_le 0 (max 0 (magazineSize - s.torpedoAmmo)) with hx | hx
    · exact hx
    · exact absurd hx (by simpa using hm)
  have hkey : ∀ (tr : ℤ), 0 ≤ tr → tr ≤ max 0 (magazineSize - s.torpedoAmmo) →
      (if s.battery < reloadBatteryCostPerTorp * (tr : ℚ) then
        ReloadRes.notEnoughBattery (reloadBatteryCostPerTorp * (tr : ℚ))
      else ReloadRes.reloaded
        { s with battery := clamp (s.battery - reloadBatteryCostPerTorp * (tr : ℚ)) 0 100,
                 torpedoAmmo := s.torpedoAmmo + tr } tr) = .reloaded s1 n →
      SubInv s1 := by
    intro tr htr0 htr1 hh
    by_cases hb : s.battery < reloadBatteryCostPerTorp * (tr : ℚ)
    · rw [if_pos hb] at hh; cases hh
    · rw [if_neg hb] at hh
      injection hh with hh1 hh2
      subst hh1
      have hmax : max 0 (magazineSize - s.torpedoAmmo) = magazineSize - s.torpedoAmmo :=
        max_eq_right (by omega)
      rw [hmax] at htr1
      refine ⟨clamp_lower, clamp_upper (by norm_num), f0, f1, ?_, ?_, c0, c1, h0, h1⟩
      · show 0 ≤ s.torpedoAmmo + tr
        omega
      · show s.torpedoAmmo + tr ≤ magazineSize
        omega
  cases c with
  | none =>
    dsimp only at h
    exact hkey _ (le_of_lt hmiss0) (le_refl _) h
  | some cv =>
    dsimp only at h
    by_cases hcv : cv ≤ 0
    · rw [if_pos hcv] at h; cases h
    · rw [if_neg hcv] at h
      dsimp only at h
      exact hkey _ (le_min (by omega) (le_of_lt hmiss0)) (min_le_right _ _) h

lemma pingStep_battery (b : ℚ) (pc : Option ℚ) (now beam maxR b1 cu cost : ℚ)
    (h : pingStep b pc now beam maxR = .accepted b1 cu cost) :
    0 ≤ b1 ∧ b1 ≤ 100 := by
  unfold pingStep at h
  dsimp only at h
  split_ifs at h
  injection h with h1 h2 h3
  subst h1
  exact ⟨clamp_lower, clamp_upper (by norm_num)⟩

lemma weatherScanStep_battery (s : Sub) (now b1 n1 : ℚ)
    (h : weatherScanStep s now = some (b1, n1)) : 0 ≤ b1 ∧ b1 ≤ 100 := by
  unfold weatherScanStep at h
  split_ifs at h
  injection h with h
  injection h with h1 h2
  subst h1
  exact ⟨clamp_lower, clamp_upper (by norm_num)⟩

lemma registerNewSub_inv (owner nid : ℕ) (x y dd hd bd : ℚ)
    (h1 : batteryInitialMin ≤ bd) (h2 : bd ≤ batteryInitialMax) :
    SubInv (registerNewSub owner nid x y dd hd bd) := by
  refine ⟨?_, ?_, ?_, ?_, ?_, ?_, ?_, ?_, ?_, ?_⟩ <;>
    simp [registerNewSub, initialFuel, maxFuelCapacity, magazineSize,
      batteryInitialMin, batteryInitialMax] at * <;> linarith

/-- A submarine state inside all the C5 bounds, used by the C5 witness. -/
def subC5 : Sub :=
  { id := 8, owner := 1, x := 0, y := 0, depth := 100, heading := 0, pitch := 0,
    rudderAngle := 0, rudderCmd := 0, planes := 0, throttle := 1/2,
    targetDepth := none, targetHeading := none, speed := 5, battery := 60,
    fuel := 800, refuelTimer := 0, refuelActive := false,
    refuelFuelerId := none, isSnorkeling := false, blowActive := false,
    blowCharge := 1, blowEnd := 0, health := 100, passiveDir := 0,
    lastReport := 0, scannerNoiseUntil := 0, torpedoAmmo := 4, score := 0,
    kills := 0, pingCooldown := none }

/-- C5: every state-mutating operation on a submarine preserves the quantified
bounds 0 ≤ battery ≤ 100, 0 ≤ fuel ≤ max_fuel_capacity,
0 ≤ torpedo_ammo ≤ magazine_size, 0 ≤ blow_charge ≤ 1 and 0 ≤ health ≤ 100:
the physics tick (update_sub), refuel processing, both detonation routines,
torpedo launch and reload, the active-ping battery deduction, the weather
scan, and the initial state register_sub creates (with its battery draw in
[initial_min, initial_max]). -/
theorem sub_state_bounds_preserved :
    (∀ (o : TrigO) (clouds : List Cloud) (dt now : ℚ) (s : Sub),
      0 ≤ dt → SubInv s → SubInv (updateSub o clouds dt now s)) ∧
    (∀ (dt now : ℚ) (s : Sub) (fuelers : List Fueler), SubInv s →
      SubInv (refuelSubStep dt now s fuelers).1) ∧
    (∀ (blast : ℚ) (t : Torp) (subs : List Sub), (∀ x ∈ subs, SubInv x) →
      ∀ x ∈ (explodeTorpedo blast t subs).1, SubInv x) ∧
    (∀ (blast : ℚ) (t : Torp) (subs : List Sub), (∀ x ∈ subs, SubInv x) →
      ∀ x ∈ (detonateTorp blast t subs).1, SubInv x) ∧
    (∀ (o : TrigO) (s : Sub) (r : ℚ) (nid : ℕ) (now : ℚ) (s1 : Sub) (t : Torp),
      SubInv s → launchTorpedo o s r nid now = some (s1, t) → SubInv s1) ∧
    (∀ (s : Sub) (c : Option ℤ) (s1 : Sub) (n : ℤ), SubInv s →
      reloadTorpedoes s c = .reloaded s1 n → SubInv s1) ∧
    (∀ (b : ℚ) (pc : Option ℚ) (now beam maxR b1 cu cost : ℚ),
      pingStep b pc now beam maxR = .accepted b1 cu cost → 0 ≤ b1 ∧ b1 ≤ 100) ∧
    (∀ (s : Sub) (now b1 n1 : ℚ), weatherScanStep s now = some (b1, n1) →
      0 ≤ b1 ∧ b1 ≤ 100) ∧
    (∀ (owner nid : ℕ) (x y dd hd bd : ℚ), batteryInitialMin ≤ bd →
      bd ≤ batteryInitialMax → SubInv (registerNewSub owner nid x y dd hd bd)) :=
  ⟨updateSub_inv,
   refuelSubStep_inv,
   explodeTorpedo_inv,
   fun blast t subs h => detonateTorp_inv blast t subs h,
   launchTorpedo_inv,
   reloadTorpedoes_inv,
   pingStep_battery,
   weatherScanStep_battery,
   registerNewSub_inv⟩

/-- C5 witness: the physics-tick conjunct applied to a concrete in-bounds
submarine over a 0.1 s tick. -/
theorem sub_state_bounds_preserved_witness :
    SubInv (updateSub trigZero [] (1/10) 0 subC5) :=
  sub_state_bounds_preserved.1 trigZero [] (1/10) 0 subC5 (by norm_num)
    (by norm_num [SubInv, subC5, maxFuelCapacity, magazineSize])

end SubBrawl
